import Mathlib

/-!
A verification development for the BevGenie page-generation subsystem:
the intent classifier, the page-spec validator and content sanitizer
(`src/lib/ai/page-specs.ts`), and the two page-generation orchestrators
(`generatePageSpec` in the template+retry variant and in the intent-locked
variant).  JavaScript strings are modelled as Lean `String` (character
lists); JavaScript numbers that carry fractional values (the classifier
confidence) are modelled as `ℚ`; functions that can throw are modelled as
`Option`/`Except`-valued; external collaborators (the text-generation
backend, the JSON parser, the template engine) are modelled as explicit
environment records the orchestrators consume.
-/

namespace BevGenie

/-! ## JavaScript string primitives -/

/-- JavaScript whitespace (the ASCII part relevant to `trim` and `\s`). -/
def jsIsWs (c : Char) : Bool :=
  c = ' ' || c = '\t' || c = '\n' || c = '\r' || c = '\x0b' || c = '\x0c'

/-- `String.prototype.toLowerCase` (ASCII). -/
def jsLower (s : String) : String :=
  String.mk (s.data.map Char.toLower)

/-- `String.prototype.trim`. -/
def jsTrim (s : String) : String :=
  String.mk (((s.data.dropWhile jsIsWs).reverse.dropWhile jsIsWs).reverse)

/-- Substring occurrence over character lists. -/
def hasSub (needle : List Char) : List Char → Bool
  | [] => needle.isPrefixOf []
  | c :: t => needle.isPrefixOf (c :: t) || hasSub needle t

/-- `haystack.includes(needle)`. -/
def jsIncludes (hay needle : String) : Bool :=
  hasSub needle.data hay.data

/-- `s.startsWith(p)`. -/
def jsStartsWith (s p : String) : Bool :=
  p.data.isPrefixOf s.data

/-- Character count of a string (JS `.length`; ASCII inputs make the
UTF-16 unit count coincide with the character count). -/
def jsLen (s : String) : Nat := s.data.length

/-- `s.split(' ').length`: splitting on the single-space separator yields
one more segment than there are space characters. -/
def jsSplitSpaceCount (s : String) : Nat :=
  (s.data.filter (· = ' ')).length + 1

/-- JS truthiness of a possibly-absent string: `undefined`, `null` and the
empty string are falsy. -/
def jsTruthyS (o : Option String) : Bool :=
  match o with
  | none => false
  | some s => !s.data.isEmpty

/-- Length of a possibly-absent string, `0` when absent. -/
def optLen (o : Option String) : Nat :=
  match o with
  | none => 0
  | some s => jsLen s

/-- `Math.round` (half away from zero is irrelevant here: all inputs are
nonnegative, so this is half-up). -/
def jsRound (q : ℚ) : ℤ := ⌊q + 1/2⌋

/-! ## A small regular-expression engine

The intent classifier's `questionPatterns` use only: start anchor `^`,
literal text, non-capturing alternations of literals `(?:a|b)`, optional
literal groups `(?:x)?`, `\s?`, `\s+`, `.*`, and word boundaries `\b`,
all under the `i` flag (moot: the input is lower-cased first).  Each
pattern is transcribed into a token sequence for this engine; `test`
semantics (does a match exist anywhere / at the start) is implemented by
a complete backtracking search. -/

inductive RTok where
  | lit (s : List Char)
  | alts (ss : List (List Char))
  | optLit (s : List Char)
  | optAlts (ss : List (List Char))
  | wsOpt
  | wsPlus
  | dotStar
  | wordB
deriving DecidableEq

/-- JS `\w`: `[A-Za-z0-9_]`. -/
def isWordChar (c : Char) : Bool :=
  (('a' ≤ c && c ≤ 'z') || ('A' ≤ c && c ≤ 'Z') || ('0' ≤ c && c ≤ '9') || c = '_')

/-- `\b` holds between a word char and a non-word char (string edges count
as non-word). `prev` is the character just before the current position. -/
def boundaryOk (prev : Option Char) (next : Option Char) : Bool :=
  xor (match prev with | none => false | some c => isWordChar c)
      (match next with | none => false | some c => isWordChar c)

/-- Last character of a consumed literal, falling back to the previous
character when the literal is empty. -/
def lastOr (s : List Char) (prev : Option Char) : Option Char :=
  match s.getLast? with
  | some c => some c
  | none => prev

/-- Backtracking matcher: can `toks` match a prefix of `cs`?  `prev` is
the character preceding `cs` in the overall subject (for `\b`).  The
`fuel` parameter makes the recursion structural so the definition reduces
in the kernel; every recursive call strictly decreases
`toks.length + cs.length`, so any fuel above that bound gives the full
backtracking semantics (see `matchToks`). -/
def matchToksF : Nat → List RTok → List Char → Option Char → Bool
  | 0, _, _, _ => false
  | _ + 1, [], _, _ => true
  | fuel + 1, .lit s :: rest, cs, prev =>
    s.isPrefixOf cs && matchToksF fuel rest (cs.drop s.length) (lastOr s prev)
  | fuel + 1, .alts ss :: rest, cs, prev =>
    ss.any (fun s => s.isPrefixOf cs && matchToksF fuel rest (cs.drop s.length) (lastOr s prev))
  | fuel + 1, .optLit s :: rest, cs, prev =>
    (s.isPrefixOf cs && matchToksF fuel rest (cs.drop s.length) (lastOr s prev))
      || matchToksF fuel rest cs prev
  | fuel + 1, .optAlts ss :: rest, cs, prev =>
    ss.any (fun s => s.isPrefixOf cs && matchToksF fuel rest (cs.drop s.length) (lastOr s prev))
      || matchToksF fuel rest cs prev
  | fuel + 1, .wsOpt :: rest, cs, prev =>
    (match cs with
     | c :: cs2 => jsIsWs c && matchToksF fuel rest cs2 (some c)
     | [] => false)
      || matchToksF fuel rest cs prev
  | fuel + 1, .wsPlus :: rest, cs, _ =>
    (match cs with
     | c :: cs2 =>
       jsIsWs c
         && (matchToksF fuel rest cs2 (some c)
           || matchToksF fuel (.wsPlus :: rest) cs2 (some c))
     | [] => false)
  | fuel + 1, .dotStar :: rest, cs, prev =>
    matchToksF fuel rest cs prev
      || (match cs with
          | c :: cs2 => c ≠ '\n' && matchToksF fuel (.dotStar :: rest) cs2 (some c)
          | [] => false)
  | fuel + 1, .wordB :: rest, cs, prev =>
    boundaryOk prev cs.head? && matchToksF fuel rest cs prev

/-- The matcher with always-sufficient fuel. -/
def matchToks (toks : List RTok) (cs : List Char) (prev : Option Char) : Bool :=
  matchToksF (toks.length + cs.length + 1) toks cs prev

/-- Unanchored search: try matching at every position. -/
def searchToks (toks : List RTok) : List Char → Option Char → Bool
  | [], prev => matchToks toks [] prev
  | c :: cs2, prev => matchToks toks (c :: cs2) prev || searchToks toks cs2 (some c)

structure RegexDef where
  anchored : Bool
  toks : List RTok
deriving DecidableEq

/-- `re.test(s)`. -/
def reTest (r : RegexDef) (s : String) : Bool :=
  if r.anchored then matchToks r.toks s.data none else searchToks r.toks s.data none

def rlit (s : String) : RTok := .lit s.data
def ralts (ss : List String) : RTok := .alts (ss.map String.data)
def roptLit (s : String) : RTok := .optLit s.data
def roptAlts (ss : List String) : RTok := .optAlts (ss.map String.data)

/-! ## Intent classifier (`src/lib/ai/intent-classifier.ts`, third document
of `src/unnamed/part_000`) -/

inductive UserIntent where
  | product_inquiry
  | feature_question
  | comparison
  | stats_roi
  | implementation
  | use_case
  | off_topic
deriving DecidableEq

structure IntentClassificationResult where
  intent : UserIntent
  confidence : ℚ
  matchedPatterns : List String
  reasoning : String
deriving DecidableEq

structure IntentPatterns where
  keywords : List String
  phrases : List String
  questionPatterns : List RegexDef

/-- An apostrophe character, for pattern strings that contain one. -/
def apos : String := (Char.ofNat 39).toString

/-- The static pattern table `INTENT_PATTERNS`.  Each regex literal from the
source is transcribed to engine tokens (a comment shows the original). -/
def INTENT_PATTERNS : UserIntent → IntentPatterns
  | .product_inquiry =>
    { keywords := ["what is", "tell me about", "explain", "bevgenie", "product", "platform",
        "overview", "about"]
      phrases := ["what is bevgenie", "tell me about bevgenie", "what does bevgenie do",
        "bevgenie overview", "what can bevgenie", "describe bevgenie"]
      questionPatterns :=
        -- /^what (?:is|does|can) (?:this|the|your)?\s?(?:product|platform|solution|tool)/i
        [⟨true, [rlit "what ", ralts ["is", "does", "can"], rlit " ",
            roptAlts ["this", "the", "your"], .wsOpt,
            ralts ["product", "platform", "solution", "tool"]]⟩,
        -- /^(?:tell|explain).*(?:about|bevgenie|platform|product)/i
         ⟨true, [ralts ["tell", "explain"], .dotStar,
            ralts ["about", "bevgenie", "platform", "product"]]⟩,
        -- /^(?:what|who) (?:are|is) (?:you|bevgenie)/i
         ⟨true, [ralts ["what", "who"], rlit " ", ralts ["are", "is"], rlit " ",
            ralts ["you", "bevgenie"]]⟩] }
  | .feature_question =>
    { keywords := ["feature", "capability", "function", "can it", "does it have", "support",
        "integrate", "analytics"]
      phrases := ["what features", "does it have", "can it do", "what capabilities",
        "how does it work", "what can it do", "features available", "functionality"]
      questionPatterns :=
        -- /^what (?:features|capabilities|functions)/i
        [⟨true, [rlit "what ", ralts ["features", "capabilities", "functions"]]⟩,
        -- /^(?:does it|can it|do you) (?:have|support|offer|provide)/i
         ⟨true, [ralts ["does it", "can it", "do you"], rlit " ",
            ralts ["have", "support", "offer", "provide"]]⟩,
        -- /^(?:how|what) (?:does|do) (?:it|the|your)?\s?(?:features?|work)/i
         ⟨true, [ralts ["how", "what"], rlit " ", ralts ["does", "do"], rlit " ",
            roptAlts ["it", "the", "your"], .wsOpt,
            ralts ["features", "feature", "work"]]⟩,
        -- /^(?:list|show|tell).*(?:features|capabilities)/i
         ⟨true, [ralts ["list", "show", "tell"], .dotStar,
            ralts ["features", "capabilities"]]⟩] }
  | .comparison =>
    { keywords := ["vs", "versus", "compare", "comparison", "competitor", "alternative",
        "difference", "better than", "why choose"]
      phrases := ["bevgenie vs", "compare to", "compared to", "better than",
        "why choose bevgenie", "advantages over", "difference between", "alternative to"]
      questionPatterns :=
        -- /\bvs\b|\bversus\b/i  (both branches are \bX\b)
        [⟨false, [.wordB, ralts ["vs", "versus"], .wordB]⟩,
        -- /\bcompare(?:d)?\s+(?:to|with|against)/i
         ⟨false, [.wordB, rlit "compare", roptLit "d", .wsPlus,
            ralts ["to", "with", "against"]]⟩,
        -- /\b(?:better|different)\s+(?:than|from)/i
         ⟨false, [.wordB, ralts ["better", "different"], .wsPlus, ralts ["than", "from"]]⟩,
        -- /\b(?:why|how)\s+(?:choose|use|prefer)/i
         ⟨false, [.wordB, ralts ["why", "how"], .wsPlus, ralts ["choose", "use", "prefer"]]⟩,
        -- /\balternative(?:s)?\s+to/i
         ⟨false, [.wordB, rlit "alternative", roptLit "s", .wsPlus, rlit "to"]⟩] }
  | .stats_roi =>
    { keywords := ["roi", "results", "metrics", "stats", "statistics", "impact", "performance",
        "outcomes", "savings", "revenue", "growth"]
      phrases := ["what results", "roi calculator", "show me stats", "what impact",
        "how much save", "revenue increase", "proven results", "customer success"]
      questionPatterns :=
        -- /\b(?:roi|return on investment)/i
        [⟨false, [.wordB, ralts ["roi", "return on investment"]]⟩,
        -- /\b(?:results|metrics|stats|statistics|outcomes)\b/i
         ⟨false, [.wordB, ralts ["results", "metrics", "stats", "statistics", "outcomes"],
            .wordB]⟩,
        -- /\b(?:how much|what).*(?:save|increase|improve|gain)/i
         ⟨false, [.wordB, ralts ["how much", "what"], .dotStar,
            ralts ["save", "increase", "improve", "gain"]]⟩,
        -- /\b(?:impact|performance|growth|revenue)/i
         ⟨false, [.wordB, ralts ["impact", "performance", "growth", "revenue"]]⟩,
        -- /\bproven\s+(?:results|success)/i
         ⟨false, [.wordB, rlit "proven", .wsPlus, ralts ["results", "success"]]⟩] }
  | .implementation =>
    { keywords := ["get started", "how to", "implement", "setup", "onboard", "launch",
        "install", "deploy", "integration", "timeline"]
      phrases := ["get started", "how to start", "implementation process", "setup guide",
        "onboarding", "launch timeline", "how long to implement", "integration steps"]
      questionPatterns :=
        -- /^(?:how (?:do|can) (?:i|we)).*(?:get started|start|begin|implement|setup|onboard)/i
        [⟨true, [rlit "how ", ralts ["do", "can"], rlit " ", ralts ["i", "we"], .dotStar,
            ralts ["get started", "start", "begin", "implement", "setup", "onboard"]]⟩,
        -- /\b(?:implementation|setup|onboarding|integration)\s+(?:process|steps|guide|timeline)/i
         ⟨false, [.wordB, ralts ["implementation", "setup", "onboarding", "integration"],
            .wsPlus, ralts ["process", "steps", "guide", "timeline"]]⟩,
        -- /\bhow long.*(?:to|does it take).*(?:implement|setup|launch)/i
         ⟨false, [.wordB, rlit "how long", .dotStar, ralts ["to", "does it take"], .dotStar,
            ralts ["implement", "setup", "launch"]]⟩,
        -- /^(?:what|show).*(?:steps|process).*(?:get started|implement)/i
         ⟨true, [ralts ["what", "show"], .dotStar, ralts ["steps", "process"], .dotStar,
            ralts ["get started", "implement"]]⟩] }
  | .use_case =>
    { keywords := ["can you help", "use case", "scenario", "for my", "my business", "my team",
        "problem", "challenge", "need", "looking for"]
      phrases := ["can you help with", "does it work for", "use case for", "my business",
        "my problem", "i need", "looking for solution", "solve my"]
      questionPatterns :=
        -- /^(?:can|could|will).*(?:help|work|solve|address)/i
        [⟨true, [ralts ["can", "could", "will"], .dotStar,
            ralts ["help", "work", "solve", "address"]]⟩,
        -- /\b(?:my|our)\s+(?:business|team|company|problem|challenge|need)/i
         ⟨false, [.wordB, ralts ["my", "our"], .wsPlus,
            ralts ["business", "team", "company", "problem", "challenge", "need"]]⟩,
        -- /\buse case.*for\b/i
         ⟨false, [.wordB, rlit "use case", .dotStar, rlit "for", .wordB]⟩,
        -- /\b(?:looking for|need|want).*(?:solution|help|tool)/i
         ⟨false, [.wordB, ralts ["looking for", "need", "want"], .dotStar,
            ralts ["solution", "help", "tool"]]⟩,
        -- /\b(?:does it|can it).*work.*for\b/i
         ⟨false, [.wordB, ralts ["does it", "can it"], .dotStar, rlit "work", .dotStar,
            rlit "for", .wordB]⟩] }
  | .off_topic =>
    { keywords := ["weather", "recipe", "movie", "sports", "politics", "joke", "game",
        "music", "news"]
      phrases := ["tell me a joke", "what" ++ apos ++ "s the weather", "latest news",
        "movie recommendation", "recipe for", "sports score"]
      questionPatterns :=
        -- /^(?:tell|give|show).*(?:joke|story|game)/i
        [⟨true, [ralts ["tell", "give", "show"], .dotStar, ralts ["joke", "story", "game"]]⟩,
        -- /\b(?:weather|recipe|movie|sports|politics|music|news)\b/i
         ⟨false, [.wordB,
            ralts ["weather", "recipe", "movie", "sports", "politics", "music", "news"],
            .wordB]⟩,
        -- /^(?:what|who|how).*(?:not related to beverage|unrelated)/i
         ⟨true, [ralts ["what", "who", "how"], .dotStar,
            ralts ["not related to beverage", "unrelated"]]⟩] }

/-- Matched keyword identifiers for one intent, in table order. -/
def keywordMatches (nm : String) (i : UserIntent) : List String :=
  (INTENT_PATTERNS i).keywords.filterMap
    (fun k => if jsIncludes nm k then some ("keyword:" ++ k) else none)

/-- Matched phrase identifiers for one intent, in table order. -/
def phraseMatches (nm : String) (i : UserIntent) : List String :=
  (INTENT_PATTERNS i).phrases.filterMap
    (fun p => if jsIncludes nm p then some ("phrase:" ++ p) else none)

/-- Matched regex identifiers for one intent, in table order. -/
def patternMatches (nm : String) (i : UserIntent) : List String :=
  (INTENT_PATTERNS i).questionPatterns.enum.filterMap
    (fun x => if reTest x.2 nm then some ("pattern:" ++ toString x.1) else none)

/-- The accumulated `matchedPatterns[i]` list: keywords, then phrases, then
regex patterns, exactly as the three `forEach` loops push them. -/
def matchListFor (i : UserIntent) (nm : String) : List String :=
  keywordMatches nm i ++ phraseMatches nm i ++ patternMatches nm i

/-- The accumulated `scores[i]`: 1 point per keyword, 3 per phrase, 5 per
regex pattern. -/
def scoreFor (i : UserIntent) (nm : String) : Nat :=
  (keywordMatches nm i).length + 3 * (phraseMatches nm i).length
    + 5 * (patternMatches nm i).length

/-- `Object.entries` iteration order of the pattern/score records. -/
def intentOrder : List UserIntent :=
  [.product_inquiry, .feature_question, .comparison, .stats_roi, .implementation,
   .use_case, .off_topic]

/-- The `(intent, score)` pairs in iteration order. -/
def scorePairs (nm : String) : List (UserIntent × Nat) :=
  intentOrder.map (fun i => (i, scoreFor i nm))

/-- The `maxScore/topIntent` selection loop: `maxScore` starts at `-1`, so
the first pair is always taken, and only strictly greater scores replace
the current best (first-seen wins ties). -/
def pickTop : List (UserIntent × Nat) → UserIntent × Nat
  | [] => (.product_inquiry, 0)
  | x :: xs => xs.foldl (fun b y => if y.2 > b.2 then y else b) x

def intentLabel : UserIntent → String
  | .product_inquiry => "Product inquiry - user wants to understand what BevGenie is"
  | .feature_question => "Feature question - user asking about specific capabilities"
  | .comparison => "Comparison - user comparing BevGenie to alternatives"
  | .stats_roi => "Stats/ROI - user interested in metrics and business impact"
  | .implementation => "Implementation - user asking about getting started"
  | .use_case => "Use case - user exploring if BevGenie fits their needs"
  | .off_topic => "Off-topic - query not related to beverage intelligence"

/-- `generateReasoning`. -/
def generateReasoning (intent : UserIntent) (ms : List String) (score : Nat)
    (confidence : ℚ) : String :=
  intentLabel intent ++ ". "
    ++ (if ms.length > 0
        then "Matched " ++ toString ms.length ++ " pattern(s)"
        else "No explicit patterns, using heuristics")
    ++ ". Score: " ++ toString score ++ ", Confidence: "
    ++ toString (jsRound (confidence * 100)) ++ "%"

/-- The confidence formula: `totalScore > 0 ? Math.min(1.0, maxScore /
(totalScore * 0.6)) : 0.3`. -/
def confidenceOf (maxScore totalScore : Nat) : ℚ :=
  if totalScore > 0 then min 1 ((maxScore : ℚ) / ((totalScore : ℚ) * (3/5))) else 3/10

/-- The top-intent selection followed by the edge-case rules, returning
`(topIntent, maxScore, matchedPatterns[topIntent])` after any fallback
rule has run. -/
def fallbackPick (nm : String) : UserIntent × Nat × List String :=
  let top := pickTop (scorePairs nm)
  if top.2 = 0 then
    -- edge-case rules: no patterns matched anywhere
    if jsLen nm < 20 && jsIncludes nm "bevgenie" then
      (UserIntent.product_inquiry, 2,
        matchListFor .product_inquiry nm ++ ["rule:short_bevgenie_mention"])
    else if jsIncludes nm "?" && jsSplitSpaceCount nm < 10 then
      (UserIntent.feature_question, 1,
        matchListFor .feature_question nm ++ ["rule:short_question"])
    else
      (UserIntent.use_case, 1, matchListFor .use_case nm ++ ["rule:generic_query"])
  else (top.1, top.2, matchListFor top.1 nm)

/-- `totalScore`: the sum of all seven intent scores (the edge-case rules
do not write back into `scores`). -/
def totalScoreOf (nm : String) : Nat := ((scorePairs nm).map (·.2)).sum

/-- The classifier body, a pure function of the normalized message. -/
def classifyCore (nm : String) : IntentClassificationResult :=
  let fb := fallbackPick nm
  let confidence : ℚ := confidenceOf fb.2.1 (totalScoreOf nm)
  { intent := fb.1
    confidence := confidence
    matchedPatterns := fb.2.2
    reasoning := generateReasoning fb.1 fb.2.2 fb.2.1 confidence }

/-- `classifyIntent(userMessage)`: lower-case, trim, then classify. -/
def classifyIntent (userMessage : String) : IntentClassificationResult :=
  classifyCore (jsTrim (jsLower userMessage))

/-! ## Page documents (`src/lib/ai/page-specs.ts`)

Sections are modelled as a tagged union mirroring `PageSection`.  Fields
whose absence the validator or sanitizer tests for (`!x`, `?.`) are
`Option`-valued.  A `single_screen` insight may at runtime be either an
object `\x7b text \x7d` or a bare string (both `validateSection` and
`sanitizeSingleScreenSection` coerce via `insight.text || insight`), so
insight elements carry that distinction. -/

structure CtaButton where
  text : Option String
  action : Option String
  primary : Option Bool
deriving DecidableEq

structure Feature where
  icon : Option String
  title : Option String
  description : Option String
deriving DecidableEq

structure CompRow where
  feature : Option String
  values : List String
deriving DecidableEq

structure FaqItem where
  question : Option String
  answer : Option String
deriving DecidableEq

structure Metric where
  value : Option String
  label : Option String
  description : Option String
deriving DecidableEq

structure StepItem where
  number : Option Nat
  title : Option String
  description : Option String
deriving DecidableEq

/-- A `single_screen` insight entry: an object with a `text` field or a
bare string. -/
inductive InsightElem where
  | objText (text : String)
  | strVal (s : String)
deriving DecidableEq

structure StatElem where
  value : Option String
  label : Option String
  description : Option String
deriving DecidableEq

structure VisualContent where
  vtype : Option String
  title : Option String
  content : Option String
  highlight : Option String
deriving DecidableEq

structure ScreenCta where
  text : Option String
  ctaType : Option String
  action : Option String
  submissionType : Option String
deriving DecidableEq

structure SingleScreenData where
  headline : Option String
  subtitle : Option String
  insights : Option (List InsightElem)
  stats : Option (List StatElem)
  visualContent : Option VisualContent
  howItWorks : Option (List String)
  ctas : Option (List ScreenCta)
deriving DecidableEq

inductive Section where
  | hero (headline subheadline : Option String) (ctaButton : Option CtaButton)
      (backgroundImage : Option String)
  | feature_grid (title subtitle : Option String) (columns : Option Nat)
      (features : Option (List Feature))
  | comparison_table (title : Option String) (headers : Option (List String))
      (rows : Option (List CompRow))
  | cta (title description : Option String) (buttons : Option (List CtaButton))
      (backgroundColor : Option String)
  | faq (title : Option String) (items : Option (List FaqItem))
  | metrics (title : Option String) (entries : Option (List Metric))
  | steps (title : Option String) (stepItems : Option (List StepItem))
      (timeline : Option String)
  | single_screen (data : SingleScreenData)
  | otherType (stype : String)
deriving DecidableEq

/-- The runtime `section.type` string. -/
def Section.typeTag : Section → String
  | .hero _ _ _ _ => "hero"
  | .feature_grid _ _ _ _ => "feature_grid"
  | .comparison_table _ _ _ => "comparison_table"
  | .cta _ _ _ _ => "cta"
  | .faq _ _ => "faq"
  | .metrics _ _ => "metrics"
  | .steps _ _ _ => "steps"
  | .single_screen _ => "single_screen"
  | .otherType t => t

structure Page where
  ptype : Option String
  title : Option String
  description : Option String
  sections : Option (List Section)
deriving DecidableEq

/-! `VALIDATION_RULES` constants actually consulted by `validateSection`
and the sanitizer. -/

namespace VALIDATION_RULES

def hero_headline_min : Nat := 10
def hero_headline_max : Nat := 100
def feature_grid_minFeatures : Nat := 2
def feature_grid_maxFeatures : Nat := 6
def cta_minButtons : Nat := 1
def cta_maxButtons : Nat := 3
def faq_minItems : Nat := 2
def faq_maxItems : Nat := 8
def steps_minSteps : Nat := 2
def steps_maxSteps : Nat := 10
def metrics_minMetrics : Nat := 1
def metrics_maxMetrics : Nat := 5
def ss_headline_max : Nat := 80
def ss_subtitle_max : Nat := 60
def ss_minInsights : Nat := 3
def ss_maxInsights : Nat := 4
def ss_insightText_max : Nat := 250
def ss_minStats : Nat := 3
def ss_maxStats : Nat := 3
def ss_statValue_max : Nat := 15
def ss_statLabel_max : Nat := 40
def ss_visualContentTitle_max : Nat := 50
def ss_visualContentText_max : Nat := 400
def ss_visualContentHighlight_max : Nat := 200
def ss_howItWorksStep_max : Nat := 100
def ss_maxHowItWorksSteps : Nat := 5
def ss_minCTAs : Nat := 2
def ss_maxCTAs : Nat := 3
def ss_ctaText_max : Nat := 40

/-- The keys present in `VALIDATION_RULES` (lookup by `section.type`). -/
def keys : List String :=
  ["hero", "feature_grid", "testimonial", "comparison_table", "cta", "faq", "metrics",
   "steps", "single_screen"]

end VALIDATION_RULES

/-! ## Content Sanitizer -/

/-- `truncateText` on a definitely-present string: `!text` keeps empty
strings untouched; otherwise clip to `maxLength - 3` characters plus an
ellipsis. -/
def truncStr (t : String) (maxLength : Nat) : String :=
  if t.data.isEmpty then t
  else if jsLen t ≤ maxLength then t
  else String.mk (t.data.take (maxLength - 3)) ++ "..."

/-- `truncateText` on a possibly-absent string (`undefined` passes through
the `!text` early return). -/
def truncateText (o : Option String) (maxLength : Nat) : Option String :=
  o.map (fun t => truncStr t maxLength)

/-- `Option`-monad `map` over a list, propagating a thrown exception. -/
def omap (f : α → Option β) : List α → Option (List β)
  | [] => some []
  | a :: l =>
    match f a with
    | none => none
    | some b =>
      match omap f l with
      | none => none
      | some bs => some (b :: bs)

/-- One insight through the sanitizer: `truncateText(insight.text ||
insight, 250)` wrapped as `\x7b text \x7d`.  When the element is an object
whose `text` is empty, the `||` falls back to the object itself, and
`truncateText` then calls `.substring` on a non-string — a TypeError,
modelled as `none`. -/
def sanitizeInsight (e : InsightElem) : Option InsightElem :=
  match e with
  | .objText t => if t.data.isEmpty then none else some (.objText (truncStr t 250))
  | .strVal s => some (.objText (truncStr s 250))

/-- One stat through the sanitizer. -/
def sanitizeStat (st : StatElem) : StatElem :=
  { value := truncateText st.value VALIDATION_RULES.ss_statValue_max
    label := truncateText st.label VALIDATION_RULES.ss_statLabel_max
    description :=
      match st.description with
      | some d => if d.data.isEmpty then none else some (truncStr d 50)
      | none => none }

/-- The visual-content record through the sanitizer (note: rebuilt from
exactly four fields, not spread). -/
def sanitizeVisual (v : VisualContent) : VisualContent :=
  { vtype := v.vtype
    title := truncateText v.title VALIDATION_RULES.ss_visualContentTitle_max
    content := truncateText v.content VALIDATION_RULES.ss_visualContentText_max
    highlight :=
      match v.highlight with
      | some h =>
        if h.data.isEmpty then none
        else some (truncStr h VALIDATION_RULES.ss_visualContentHighlight_max)
      | none => none }

/-- `sanitizeSingleScreenSection`.  `none` models the TypeError thrown by
the insight coercion (see `sanitizeInsight`). -/
def sanitizeSingleScreenSection (s : SingleScreenData) : Option SingleScreenData :=
  match
    (match s.insights with
     | none => some []   -- `section.insights?...  || []`
     | some l => omap sanitizeInsight (l.take VALIDATION_RULES.ss_maxInsights))
  with
  | none => none
  | some ins =>
    some
      { headline := truncateText s.headline VALIDATION_RULES.ss_headline_max
        subtitle := truncateText s.subtitle VALIDATION_RULES.ss_subtitle_max
        insights := some ins
        stats :=
          some (((s.stats.getD []).take VALIDATION_RULES.ss_maxStats).map sanitizeStat)
        visualContent := s.visualContent.map sanitizeVisual
        howItWorks :=
          some (((s.howItWorks.getD []).take VALIDATION_RULES.ss_maxHowItWorksSteps).map
            (fun st => truncStr st VALIDATION_RULES.ss_howItWorksStep_max))
        ctas :=
          some (((s.ctas.getD []).take VALIDATION_RULES.ss_maxCTAs).map
            (fun c => { c with text := truncateText c.text VALIDATION_RULES.ss_ctaText_max })) }

/-- Section-level sanitizer dispatch: only `single_screen` is touched. -/
def sanitizeSection (s : Section) : Option Section :=
  match s with
  | .single_screen d => (sanitizeSingleScreenSection d).map .single_screen
  | s' => some s'

/-- `sanitizePageContent`: map the sanitizer over `page.sections`.  `none`
models a thrown TypeError (absent `sections`, or the insight coercion). -/
def sanitizePageContent (p : Page) : Option Page :=
  match p.sections with
  | none => none   -- `page.sections.map` on undefined throws
  | some secs =>
    match omap sanitizeSection secs with
    | none => none
    | some l => some { p with sections := some l }

/-! ## Schema Validator -/

/-- `if c then [m] else []`: the violation-pushing pattern. -/
def errIf (c : Bool) (m : String) : List String :=
  if c then [m] else []

/-- Concatenation of per-element violation lists (a `forEach` pushing into
`errors`). -/
def cmap (f : α → List β) (l : List α) : List β :=
  (l.map f).flatten

/-- Per-insight length check: `const text = insight.text || insight;
if (text && text.length > max)`.  For an object with empty `text`, the
coerced value is the (truthy) object whose `length` is `undefined`, so no
violation is recorded. -/
def insightViolation (i : Nat) (e : InsightElem) : List String :=
  match e with
  | .objText t =>
    errIf (!t.data.isEmpty && jsLen t > VALIDATION_RULES.ss_insightText_max)
      ("Insight " ++ toString i ++ " too long (max "
        ++ toString VALIDATION_RULES.ss_insightText_max ++ " chars, got "
        ++ toString (jsLen t) ++ ")")
  | .strVal s =>
    errIf (!s.data.isEmpty && jsLen s > VALIDATION_RULES.ss_insightText_max)
      ("Insight " ++ toString i ++ " too long (max "
        ++ toString VALIDATION_RULES.ss_insightText_max ++ " chars, got "
        ++ toString (jsLen s) ++ ")")

/-- The `single_screen` case of `validateSection`. -/
def validateSingleScreen (d : SingleScreenData) : List String :=
  errIf (!jsTruthyS d.headline || !jsTruthyS d.subtitle) "Missing headline or subtitle"
    ++ errIf (jsTruthyS d.headline && optLen d.headline > VALIDATION_RULES.ss_headline_max)
      ("Headline too long (max " ++ toString VALIDATION_RULES.ss_headline_max
        ++ " chars, got " ++ toString (optLen d.headline) ++ ")")
    ++ errIf (jsTruthyS d.subtitle && optLen d.subtitle > VALIDATION_RULES.ss_subtitle_max)
      ("Subtitle too long (max " ++ toString VALIDATION_RULES.ss_subtitle_max
        ++ " chars, got " ++ toString (optLen d.subtitle) ++ ")")
    ++ errIf (d.insights.isNone
        || (d.insights.getD []).length < VALIDATION_RULES.ss_minInsights)
      ("Too few insights (min " ++ toString VALIDATION_RULES.ss_minInsights ++ ")")
    ++ errIf (d.insights.isSome
        && (d.insights.getD []).length > VALIDATION_RULES.ss_maxInsights)
      ("Too many insights (max " ++ toString VALIDATION_RULES.ss_maxInsights ++ ")")
    ++ cmap (fun x => insightViolation x.1 x.2) (d.insights.getD []).enum
    ++ errIf (d.stats.isNone || (d.stats.getD []).length < VALIDATION_RULES.ss_minStats)
      ("Too few stats (min " ++ toString VALIDATION_RULES.ss_minStats ++ ")")
    ++ errIf (d.stats.isSome && (d.stats.getD []).length > VALIDATION_RULES.ss_maxStats)
      ("Too many stats (max " ++ toString VALIDATION_RULES.ss_maxStats ++ ")")
    ++ cmap
      (fun x =>
        errIf (jsTruthyS x.2.value && optLen x.2.value > VALIDATION_RULES.ss_statValue_max)
          ("Stat " ++ toString x.1 ++ " value too long (max "
            ++ toString VALIDATION_RULES.ss_statValue_max ++ " chars)")
          ++ errIf (jsTruthyS x.2.label
              && optLen x.2.label > VALIDATION_RULES.ss_statLabel_max)
            ("Stat " ++ toString x.1 ++ " label too long (max "
              ++ toString VALIDATION_RULES.ss_statLabel_max ++ " chars)"))
      (d.stats.getD []).enum
    ++ (match d.visualContent with
        | some v =>
          errIf (jsTruthyS v.content
              && optLen v.content > VALIDATION_RULES.ss_visualContentText_max)
            ("Visual content text too long (max "
              ++ toString VALIDATION_RULES.ss_visualContentText_max ++ " chars, got "
              ++ toString (optLen v.content) ++ ")")
            ++ errIf (jsTruthyS v.highlight
                && optLen v.highlight > VALIDATION_RULES.ss_visualContentHighlight_max)
              ("Visual content highlight too long (max "
                ++ toString VALIDATION_RULES.ss_visualContentHighlight_max ++ " chars)")
        | none => [])
    ++ (match d.howItWorks with
        | some l =>
          errIf (l.length > VALIDATION_RULES.ss_maxHowItWorksSteps)
            ("Too many \"how it works\" steps (max "
              ++ toString VALIDATION_RULES.ss_maxHowItWorksSteps ++ ")")
            ++ cmap
              (fun x =>
                errIf (!x.2.data.isEmpty
                    && jsLen x.2 > VALIDATION_RULES.ss_howItWorksStep_max)
                  ("\"How it works\" step " ++ toString x.1 ++ " too long (max "
                    ++ toString VALIDATION_RULES.ss_howItWorksStep_max ++ " chars)"))
              l.enum
        | none => [])
    ++ errIf (d.ctas.isNone || (d.ctas.getD []).length < VALIDATION_RULES.ss_minCTAs)
      ("Too few CTAs (min " ++ toString VALIDATION_RULES.ss_minCTAs ++ ")")
    ++ errIf (d.ctas.isSome && (d.ctas.getD []).length > VALIDATION_RULES.ss_maxCTAs)
      ("Too many CTAs (max " ++ toString VALIDATION_RULES.ss_maxCTAs ++ ")")
    ++ cmap
      (fun x =>
        errIf (jsTruthyS x.2.text && optLen x.2.text > VALIDATION_RULES.ss_ctaText_max)
          ("CTA " ++ toString x.1 ++ " text too long (max "
            ++ toString VALIDATION_RULES.ss_ctaText_max ++ " chars)"))
      (d.ctas.getD []).enum

/-- `validateSection`: rules lookup, then the per-type `switch` (no case
exists for `comparison_table` or `testimonial`, so those produce no
violations beyond the rules lookup). -/
def validateSection (s : Section) : List String :=
  match s with
  | .otherType t =>
    if VALIDATION_RULES.keys.contains t then [] else ["Unknown section type: " ++ t]
  | .hero h _ _ _ =>
    errIf (!jsTruthyS h || optLen h < VALIDATION_RULES.hero_headline_min)
      ("Headline too short (min " ++ toString VALIDATION_RULES.hero_headline_min
        ++ " chars)")
      ++ errIf (jsTruthyS h && optLen h > VALIDATION_RULES.hero_headline_max)
        ("Headline too long (max " ++ toString VALIDATION_RULES.hero_headline_max
          ++ " chars)")
  | .feature_grid _ _ _ feats =>
    errIf (feats.isNone
        || (feats.getD []).length < VALIDATION_RULES.feature_grid_minFeatures)
      ("Too few features (min " ++ toString VALIDATION_RULES.feature_grid_minFeatures
        ++ ")")
      ++ errIf (feats.isSome
          && (feats.getD []).length > VALIDATION_RULES.feature_grid_maxFeatures)
        ("Too many features (max " ++ toString VALIDATION_RULES.feature_grid_maxFeatures
          ++ ")")
      ++ cmap
        (fun x =>
          errIf (!jsTruthyS x.2.title || !jsTruthyS x.2.description)
            ("Feature " ++ toString x.1 ++ ": Missing title or description"))
        (feats.getD []).enum
  | .cta _ _ btns _ =>
    errIf (btns.isNone || (btns.getD []).length < VALIDATION_RULES.cta_minButtons)
      ("Too few buttons (min " ++ toString VALIDATION_RULES.cta_minButtons ++ ")")
      ++ errIf (btns.isSome && (btns.getD []).length > VALIDATION_RULES.cta_maxButtons)
        ("Too many buttons (max " ++ toString VALIDATION_RULES.cta_maxButtons ++ ")")
  | .faq _ items =>
    errIf (items.isNone || (items.getD []).length < VALIDATION_RULES.faq_minItems)
      ("Too few FAQ items (min " ++ toString VALIDATION_RULES.faq_minItems ++ ")")
      ++ errIf (items.isSome && (items.getD []).length > VALIDATION_RULES.faq_maxItems)
        ("Too many FAQ items (max " ++ toString VALIDATION_RULES.faq_maxItems ++ ")")
  | .steps _ sts _ =>
    errIf (sts.isNone || (sts.getD []).length < VALIDATION_RULES.steps_minSteps)
      ("Too few steps (min " ++ toString VALIDATION_RULES.steps_minSteps ++ ")")
      ++ errIf (sts.isSome && (sts.getD []).length > VALIDATION_RULES.steps_maxSteps)
        ("Too many steps (max " ++ toString VALIDATION_RULES.steps_maxSteps ++ ")")
  | .metrics _ ms =>
    errIf (ms.isNone || (ms.getD []).length < VALIDATION_RULES.metrics_minMetrics)
      ("Too few metrics (min " ++ toString VALIDATION_RULES.metrics_minMetrics ++ ")")
      ++ errIf (ms.isSome && (ms.getD []).length > VALIDATION_RULES.metrics_maxMetrics)
        ("Too many metrics (max " ++ toString VALIDATION_RULES.metrics_maxMetrics ++ ")")
  | .comparison_table _ _ _ => []
  | .single_screen d => validateSingleScreen d

/-- `validatePageSpec`. -/
def validatePageSpec (p : Page) : List String :=
  if !jsTruthyS p.ptype || !jsTruthyS p.title || !jsTruthyS p.description then
    ["Missing required fields: type, title, or description"]
  else
    match p.sections with
    | none => ["Page must contain at least one section"]
    | some [] => ["Page must contain at least one section"]
    | some secs =>
      cmap
        (fun x =>
          (validateSection x.2).map
            (fun e => "Section " ++ toString x.1 ++ " (" ++ x.2.typeTag ++ "): " ++ e))
        secs.enum

/-! ## Layout strategies

Modelled from the spec: the module `@/lib/constants/intent-layouts`
(`getLayoutStrategyForIntent`, `INTENT_LAYOUT_STRATEGIES`) is not under
`src/`; §4.2 fixes it as a pure, total, per-intent static table whose
entries have 2–5 ordered sections with height percentages summing to
roughly 100 (`off_topic` degrades to a minimal strategy).  The exact table
contents are not fixed by the spec; representative entries are used, and no
claim below depends on them beyond totality of the lookup. -/

structure SectionSpec where
  stype : String
  heightPercent : Nat
  contentFocus : String
deriving DecidableEq

structure IntentLayoutStrategy where
  layoutMode : String
  sections : List SectionSpec
  strategy : String
  contentDensity : String
deriving DecidableEq

/-- Modelled from the spec: `getLayoutStrategyForIntent`, a total pure
table lookup (§4.2). -/
def getLayoutStrategyForIntent : UserIntent → IntentLayoutStrategy
  | .product_inquiry =>
    { layoutMode := "balanced"
      sections := [⟨"hero", 35, "Platform overview"⟩, ⟨"feature_grid", 45, "Core capabilities"⟩,
        ⟨"cta", 20, "Invite to explore"⟩]
      strategy := "Overview first, then capabilities", contentDensity := "medium" }
  | .feature_question =>
    { layoutMode := "compact"
      sections := [⟨"hero", 30, "Feature headline"⟩, ⟨"feature_grid", 50, "Feature details"⟩,
        ⟨"cta", 20, "Request a demo"⟩]
      strategy := "Feature-centric", contentDensity := "high" }
  | .comparison =>
    { layoutMode := "balanced"
      sections := [⟨"hero", 25, "Differentiation headline"⟩,
        ⟨"comparison_table", 55, "Feature comparison"⟩, ⟨"cta", 20, "Talk to an expert"⟩]
      strategy := "Comparison-led", contentDensity := "high" }
  | .stats_roi =>
    { layoutMode := "spacious"
      sections := [⟨"hero", 40, "Results headline"⟩, ⟨"metrics", 40, "Key outcomes"⟩,
        ⟨"cta", 20, "Get a detailed report"⟩]
      strategy := "Results-led", contentDensity := "low" }
  | .implementation =>
    { layoutMode := "balanced"
      sections := [⟨"hero", 30, "Path to launch"⟩, ⟨"steps", 50, "Implementation phases"⟩,
        ⟨"cta", 20, "Schedule kickoff"⟩]
      strategy := "Process-led", contentDensity := "medium" }
  | .use_case =>
    { layoutMode := "compact"
      sections := [⟨"single_screen", 100, "All-in-one answer"⟩]
      strategy := "Single-screen answer", contentDensity := "high" }
  | .off_topic =>
    { layoutMode := "spacious"
      sections := [⟨"hero", 60, "Gentle redirect"⟩, ⟨"cta", 40, "Explore the platform"⟩]
      strategy := "Minimal redirect", contentDensity := "low" }

/-! ## Orchestrators (`generatePageSpec`, both documents of
`src/unnamed/part_000`)

External collaborators are environment records: the text-generation
backend returns either a thrown value or a response whose text block may be
absent; `JSON.parse` is an oracle from the extracted text to a page or a
thrown `SyntaxError`.  Wall-clock time is not modelled (`generationTime`
is recorded as 0).  Prompt rendering is abstracted: the backend oracle
receives the data the prompts encode (attempt number and current message
for the retry variant; the classification, strategy and request for the
intent-locked variant). -/

/-- A thrown JavaScript value: an `Error` with a message, or a non-`Error`
value (for which `error instanceof Error` is false). -/
inductive JSError where
  | err (msg : String)
  | nonError
deriving DecidableEq

/-- `error instanceof Error ? error.message : 'Unknown error during page
generation'`. -/
def jsErrMsg : JSError → String
  | .err m => m
  | .nonError => "Unknown error during page generation"

/-- `error instanceof Error ? error.message : 'Unknown error'` (the parse
wrapper in the retry variant). -/
def jsErrMsgShort : JSError → String
  | .err m => m
  | .nonError => "Unknown error"

structure PageGenerationRequest where
  userMessage : String
  pageType : String
  userIntent : Option UserIntent
  sessionId : Option String
deriving DecidableEq

structure PageGenerationResponse where
  success : Bool
  page : Option Page
  error : Option String
  retryCount : Option Nat
  generationTime : Option Nat
deriving DecidableEq

/-- `/\{[\s\S]*\}/`: greedy span from the first `\x7b` to the last `\x7d`,
when the latter comes after the former. -/
def braceSpan (s : String) : Option String :=
  match s.data.findIdx? (· = '{') with
  | none => none
  | some i =>
    match s.data.reverse.findIdx? (· = '}') with
    | none => none
    | some jr =>
      let j := s.data.length - 1 - jr
      if i < j then some (String.mk ((s.data.drop i).take (j - i + 1))) else none

/-- Outcome of `generateFromTemplate` (the `template-engine` module is not
under `src/`; its result shape is taken from the call site). -/
structure TemplateResult where
  success : Bool
  filledPage : Option Page
deriving DecidableEq

/-- Environment of the template+retry orchestrator (first document of
`part_000`). -/
structure V1Env where
  /-- `generateFromTemplate` outcome (or a thrown value). -/
  template : Except JSError TemplateResult
  /-- Backend call per attempt: attempt number and current user message in,
  thrown value or response text block out. -/
  gen : Nat → String → Except JSError (Option String)
  /-- `JSON.parse` on the brace-matched span, per attempt. -/
  parse : Nat → String → Except JSError Page

/-- `attemptPageGeneration` (retry variant): backend call, text-block
extraction, brace matching, `JSON.parse`, with the parse `try`/`catch`
wrapping parse-stage messages. -/
def attemptV1 (env : V1Env) (n : Nat) (msg : String) : Except JSError Page :=
  match env.gen n msg with
  | .error e => .error e
  | .ok none => .error (.err "No text response from Claude")
  | .ok (some txt) =>
    match braceSpan txt with
    | none =>
      .error (.err "Failed to parse page specification: No JSON found in response")
    | some span =>
      match env.parse n span with
      | .error e =>
        .error (.err ("Failed to parse page specification: " ++ jsErrMsgShort e))
      | .ok p => .ok p

def mkSuccess (p : Page) (rc : Nat) : PageGenerationResponse :=
  { success := true, page := some p, error := none, retryCount := some rc,
    generationTime := some 0 }

def mkFailure (e : String) (rc : Nat) : PageGenerationResponse :=
  { success := false, page := none, error := some e, retryCount := some rc,
    generationTime := some 0 }

/-- The `while (retryCount <= maxRetries)` loop with `maxRetries = 2`.
`fuel` counts the remaining permitted iterations (`3 - retryCount`), so
exhausted fuel is exactly the loop condition failing, which falls through
to the `'Max retries exceeded'` return.  The second component counts calls
to the generation backend. -/
def v1Loop (validate : Page → List String) (env : V1Env) :
    Nat → Nat → Nat → String → PageGenerationResponse × Nat
  | 0, rc, attempts, _ => (mkFailure "Max retries exceeded" rc, attempts)
  | fuel + 1, rc, attempts, msg =>
    match attemptV1 env rc msg with
    | .ok page =>
      let validationErrors := validate page
      if validationErrors = [] then (mkSuccess page rc, attempts + 1)
      else if rc < 2 then
        v1Loop validate env fuel (rc + 1) (attempts + 1)
          (msg ++ "\n\n[Previous attempt had validation issues: "
            ++ String.intercalate ", " validationErrors
            ++ ". Please regenerate with these corrections.]")
      else
        (mkFailure
          ("Validation failed after 2 retries: "
            ++ String.intercalate ", " validationErrors) rc,
         attempts + 1)
    | .error e =>
      if rc < 2 then v1Loop validate env fuel (rc + 1) (attempts + 1) msg
      else (mkFailure (jsErrMsg e) rc, attempts + 1)

/-- `generatePageSpec` (template+retry variant): template fast path with
its own validation, falling through to the full-generation loop.  The
schema validator is passed explicitly (the source imports
`validatePageSpec`; instantiating `validate := validatePageSpec` recovers
the source exactly, and hypothetical validators state the spec's retry
properties).  The second component counts full-generation backend calls. -/
def generatePageSpecV1 (validate : Page → List String) (req : PageGenerationRequest)
    (env : V1Env) : PageGenerationResponse × Nat :=
  let fallback := v1Loop validate env 3 0 0 req.userMessage
  match env.template with
  | .error _ => fallback
  | .ok tr =>
    match tr.filledPage with
    | some fp =>
      if tr.success then
        if validate fp = [] then (mkSuccess fp 0, 0) else fallback
      else fallback
    | none => fallback

/-! The intent-locked variant (second document of `part_000`). -/

/-- `/```json\n?/g`: remove every occurrence of three backticks + `json`,
preferring the form with a trailing newline. -/
def stripJsonFences : List Char → List Char
  | [] => []
  | c :: rest =>
    if ("```json\n".data).isPrefixOf (c :: rest) then stripJsonFences ((c :: rest).drop 8)
    else if ("```json".data).isPrefixOf (c :: rest) then
      stripJsonFences ((c :: rest).drop 7)
    else c :: stripJsonFences rest
termination_by cs => cs.length
decreasing_by
  all_goals simp_all
  all_goals omega

/-- `/```\n?/g`. -/
def stripAllFences : List Char → List Char
  | [] => []
  | c :: rest =>
    if ("```\n".data).isPrefixOf (c :: rest) then stripAllFences ((c :: rest).drop 4)
    else if ("```".data).isPrefixOf (c :: rest) then stripAllFences ((c :: rest).drop 3)
    else c :: stripAllFences rest
termination_by cs => cs.length
decreasing_by
  all_goals simp_all
  all_goals omega

/-- `/```\n?$/g`: strip one trailing fence. -/
def stripTrailingFence (cs : List Char) : List Char :=
  if ("```\n".data).isSuffixOf cs then cs.take (cs.length - 4)
  else if ("```".data).isSuffixOf cs then cs.take (cs.length - 3)
  else cs

/-- The code-fence stripping applied to the trimmed response text. -/
def stripFences (s : String) : String :=
  if jsStartsWith s "```json" then
    String.mk (stripTrailingFence (stripJsonFences s.data))
  else if jsStartsWith s "```" then
    String.mk (stripTrailingFence (stripAllFences s.data))
  else s

/-- Environment of the intent-locked orchestrator. -/
structure V2Env where
  /-- Backend call: receives the data the prompts encode (intent
  classification, layout strategy, request) and returns a thrown value or a
  response text block. -/
  gen : IntentClassificationResult → IntentLayoutStrategy → PageGenerationRequest →
    Except JSError (Option String)
  /-- `JSON.parse` on the fence-stripped text. -/
  parse : String → Except JSError Page

/-- `attemptPageGeneration` (intent-locked variant): backend call, text
extraction, fence stripping, `JSON.parse`; errors are re-thrown
unwrapped. -/
def attemptV2 (env : V2Env) (ic : IntentClassificationResult)
    (strat : IntentLayoutStrategy) (req : PageGenerationRequest) : Except JSError Page :=
  match env.gen ic strat req with
  | .error e => .error e
  | .ok none => .error (.err "No text content in response")
  | .ok (some raw) =>
    match env.parse (stripFences (jsTrim raw)) with
    | .error e => .error e
    | .ok p => .ok p

/-- Step 1 of the intent-locked orchestrator: use the provided intent
verbatim (confidence 1.0, matchedPatterns `['provided']`) or invoke the
classifier. -/
def v2Classification (classify : String → IntentClassificationResult)
    (req : PageGenerationRequest) : IntentClassificationResult :=
  match req.userIntent with
  | some i =>
    { intent := i, confidence := 1, matchedPatterns := ["provided"],
      reasoning := "Intent provided by caller" }
  | none => classify req.userMessage

/-- Step 2: the fixed layout strategy for the classified intent. -/
def v2Strategy (classify : String → IntentClassificationResult)
    (req : PageGenerationRequest) : IntentLayoutStrategy :=
  getLayoutStrategyForIntent (v2Classification classify req).intent

/-- `generatePageSpec` (intent-locked variant).  On success, when a
session id is present the content tracker reads
`page.sections.find(...)` — a TypeError when `sections` is absent, caught
by the surrounding `try` and collapsed into a failure response.  No
validator and no sanitizer run on the parsed page. -/
def generatePageSpecV2 (classify : String → IntentClassificationResult)
    (req : PageGenerationRequest) (env : V2Env) : PageGenerationResponse :=
  let ic := v2Classification classify req
  match attemptV2 env ic (getLayoutStrategyForIntent ic.intent) req with
  | .ok page =>
    match req.sessionId with
    | some _ =>
      match page.sections with
      | none => mkFailure "Cannot read properties of undefined (reading 'find')" 0
      | some _ => mkSuccess page 0
    | none => mkSuccess page 0
  | .error e => mkFailure (jsErrMsg e) 0

/-! ## Concrete documents and environments used by witnesses and
counterexamples -/

/-- A whitespace-only message. -/
def wsMsg : String := "  \t  "

/-- A feature with the given title and description. -/
def mkFeature (t d : String) : Feature := ⟨none, some t, some d⟩

/-- A page whose single section is a `feature_grid` with exactly one
feature (title and description within the documented bounds). -/
def oneFeaturePage : Page :=
  { ptype := some "feature_showcase"
    title := some "Feature Overview Page"
    description := some "A page describing one core feature in detail."
    sections := some [.feature_grid none none (some 2)
      (some [mkFeature "Sales Tracking" "Track field sales performance in real time."])] }

/-- A concrete valid page used by the round-trip witness. -/
def roundtripDoc : Page :=
  { ptype := some "feature_showcase"
    title := some "Feature Overview Page"
    description := some "A page describing two core features in detail."
    sections := some [.feature_grid none none (some 2)
      (some [⟨none, some "Sales Tracking", some "Track field sales performance in real time."⟩,
        ⟨none, some "Market Coverage", some "See distributor coverage across all territories."⟩])] }

/-- A page whose single section is a `feature_grid` with exactly two
features carrying the given titles and descriptions. -/
def twoFeaturePage (t1 d1 t2 d2 : String) : Page :=
  { ptype := some "feature_showcase"
    title := some "Feature Overview Page"
    description := some "A page describing two core features in detail."
    sections := some [.feature_grid none none (some 2)
      (some [mkFeature t1 d1, mkFeature t2 d2])] }

/-- A fully valid page whose `single_screen` insights include an object
with empty `text`: the coerced value (the object itself) escapes the
validator's length check, yet crashes the sanitizer. -/
def c4gapPage : Page :=
  { ptype := some "solution_brief", title := some "Validator gap probe"
    description := some "Validates cleanly although the sanitizer throws on it."
    sections := some [.single_screen
      { headline := some "Distribution intelligence for growing brands"
        subtitle := some "Answers in one screen"
        insights := some [.objText "", .strVal "Real-time field sales visibility",
          .objText "Distributor coverage insights"]
        stats := some [⟨some "47%", some "Faster response time", none⟩,
          ⟨some "2.5x", some "Revenue growth", none⟩,
          ⟨some "90", some "Days to launch", none⟩]
        visualContent := none
        howItWorks := none
        ctas := some [⟨some "Schedule a demo", none, none, none⟩,
          ⟨some "Explore features", none, none, none⟩] }] }

/-- A `single_screen` section whose `insights` contain a bare empty
string. -/
def crashScreen : SingleScreenData :=
  { headline := none, subtitle := none, insights := some [.strVal ""], stats := none,
    visualContent := none, howItWorks := none, ctas := none }

/-- A page containing `crashScreen`. -/
def crashPage : Page :=
  { ptype := some "solution_brief", title := some "Crash probe page"
    description := some "Demonstrates the sanitizer insight coercion."
    sections := some [.single_screen crashScreen] }

/-- `crashPage` after one sanitizer pass: the empty insight has become the
object `\x7b text: "" \x7d`. -/
def crashPageOnce : Page :=
  { ptype := some "solution_brief", title := some "Crash probe page"
    description := some "Demonstrates the sanitizer insight coercion."
    sections := some [.single_screen
      { headline := none, subtitle := none, insights := some [.objText ""],
        stats := some [], visualContent := none, howItWorks := some [], ctas := some [] }] }

/-- A page with a `single_screen` headline of 90 characters — over the
80-character cap, so sanitization would change it. -/
def longHeadlinePage : Page :=
  { ptype := some "solution_brief", title := some "Long headline probe"
    description := some "A page whose single screen headline exceeds the sanitizer cap."
    sections := some [.single_screen
      { headline := some (String.mk (List.replicate 90 'a'))
        subtitle := some "A fitting subtitle", insights := some [], stats := some [],
        visualContent := none, howItWorks := none, ctas := some [] }] }

/-- Request without a precomputed intent or session id. -/
def c3req : PageGenerationRequest :=
  { userMessage := "show me", pageType := "solution_brief", userIntent := none,
    sessionId := none }

/-- Intent-locked environment whose backend output parses to
`longHeadlinePage`. -/
def c3env : V2Env :=
  { gen := fun _ _ _ => .ok (some "x"), parse := fun _ => .ok longHeadlinePage }

/-- A validator that rejects every page. -/
def alwaysReject : Page → List String := fun _ => ["rejected"]

/-- A minimal well-formed page returned by stub backends. -/
def stubPage : Page :=
  { ptype := some "solution_brief", title := some "Stub page title"
    description := some "A stub page description for orchestrator tests."
    sections := some [.hero (some "A stub hero headline") none none none] }

/-- Retry-variant environment: template throws, every attempt parses to
`stubPage`. -/
def c2env : V1Env :=
  { template := .error .nonError, gen := fun _ _ => .ok (some "{}"),
    parse := fun _ _ => .ok stubPage }

def c2req : PageGenerationRequest :=
  { userMessage := "hello", pageType := "solution_brief", userIntent := none,
    sessionId := none }

/-- Retry-variant environment whose backend always throws a transport
error with a non-empty message. -/
def c1envV1 : V1Env :=
  { template := .error .nonError, gen := fun _ _ => .error (.err "backend unreachable"),
    parse := fun _ _ => .error .nonError }

/-- Intent-locked environment whose backend response has no text block. -/
def c1envV2 : V2Env :=
  { gen := fun _ _ _ => .ok none, parse := fun _ => .error .nonError }

def c1req : PageGenerationRequest :=
  { userMessage := "hi", pageType := "comparison", userIntent := none, sessionId := none }

/-- Request carrying a precomputed `comparison` intent. -/
def c10req : PageGenerationRequest :=
  { userMessage := "does not matter", pageType := "comparison",
    userIntent := some .comparison, sessionId := none }

def c10env : V2Env :=
  { gen := fun _ _ _ => .ok none, parse := fun _ => .error .nonError }

/-- A stub classifier, used to show the orchestrator ignores the
classifier when an intent is provided. -/
def constClassifier : String → IntentClassificationResult :=
  fun _ =>
    { intent := .off_topic
      confidence := 0
      matchedPatterns := []
      reasoning := "stub" }

/-! ## Helper lemmas -/

theorem errIf_eq_nil {c : Bool} {m : String} : errIf c m = [] ↔ c = false := by
  cases c <;> simp [errIf]

theorem cmap_eq_nil {f : α → List β} {l : List α} :
    cmap f l = [] ↔ ∀ a ∈ l, f a = [] := by
  simp [cmap, List.flatten_eq_nil_iff]

theorem omap_length {f : α → Option β} :
    ∀ {l : List α} {l' : List β}, omap f l = some l' → l'.length = l.length := by
  intro l
  induction l with
  | nil =>
    intro l' h
    simp only [omap, Option.some.injEq] at h
    subst h
    rfl
  | cons a t ih =>
    intro l' h
    simp only [omap] at h
    cases hfa : f a with
    | none => simp [hfa] at h
    | some b =>
      rw [hfa] at h
      cases ht : omap f t with
      | none => simp [ht] at h
      | some bs =>
        rw [ht] at h
        simp only [Option.some.injEq] at h
        subst h
        simp [ih ht]

theorem omap_mem {f : α → Option β} :
    ∀ {l : List α} {l' : List β}, omap f l = some l' → ∀ b ∈ l', ∃ a ∈ l, f a = some b := by
  intro l
  induction l with
  | nil =>
    intro l' h
    simp only [omap, Option.some.injEq] at h
    subst h
    intro b hb
    simp at hb
  | cons a t ih =>
    intro l' h
    simp only [omap] at h
    cases hfa : f a with
    | none => simp [hfa] at h
    | some b =>
      rw [hfa] at h
      cases ht : omap f t with
      | none => simp [ht] at h
      | some bs =>
        rw [ht] at h
        simp only [Option.some.injEq] at h
        subst h
        intro x hx
        rcases List.mem_cons.mp hx with rfl | hx2
        · exact ⟨a, List.mem_cons_self a t, hfa⟩
        · rcases ih ht x hx2 with ⟨a2, ha2, hfa2⟩
          exact ⟨a2, List.mem_cons_of_mem a ha2, hfa2⟩

theorem data_append (s t : String) : (s ++ t).data = s.data ++ t.data := rfl

theorem jsLen_truncStr_le {t : String} {m : Nat} (hm : 3 ≤ m) :
    jsLen (truncStr t m) ≤ m := by
  unfold truncStr
  split_ifs with h1 h2
  · rw [List.isEmpty_iff] at h1
    simp [jsLen, h1]
  · exact h2
  · show ((String.mk (t.data.take (m - 3)) ++ "...").data).length ≤ m
    rw [data_append]
    simp
    omega

theorem truncStr_not_empty {t : String} {m : Nat} (h : t.data.isEmpty = false) :
    (truncStr t m).data.isEmpty = false := by
  unfold truncStr
  split_ifs with h1 h2
  · exact h
  · exact h
  · show ((String.mk (t.data.take (m - 3)) ++ "...").data).isEmpty = false
    rw [data_append]
    simp [List.isEmpty_iff]

theorem optLen_truncateText_le {o : Option String} {m : Nat} (hm : 3 ≤ m) :
    optLen (truncateText o m) ≤ m := by
  cases o with
  | none => simp [truncateText, optLen]
  | some t => simpa [truncateText, optLen] using jsLen_truncStr_le (t := t) hm

theorem jsTruthyS_truncateText {o : Option String} {m : Nat} (h : jsTruthyS o = true) :
    jsTruthyS (truncateText o m) = true := by
  cases o with
  | none => simp [jsTruthyS] at h
  | some t =>
    simp only [jsTruthyS, Bool.not_eq_true'] at h
    simp only [truncateText, Option.map_some', jsTruthyS, Bool.not_eq_true']
    exact truncStr_not_empty h

/-! ## Claim C9 -/

/-- The confidence formula is bounded for any score pair. -/
theorem confidenceOf_unit (a t : Nat) : 0 ≤ confidenceOf a t ∧ confidenceOf a t ≤ 1 := by
  unfold confidenceOf
  split_ifs with h
  · exact ⟨le_min (by norm_num) (div_nonneg (by positivity) (by positivity)),
      min_le_left _ _⟩
  · norm_num

theorem classifyIntent_eq (msg : String) :
    classifyIntent msg = classifyCore (jsTrim (jsLower msg)) := rfl

theorem classifyCore_confidence_eq (nm : String) :
    (classifyCore nm).confidence = confidenceOf (fallbackPick nm).2.1 (totalScoreOf nm) :=
  rfl

/-- Claim C9: for every input message, the confidence returned by
`classifyIntent` lies in `[0, 1]`, for every resulting intent and score
distribution, including the all-zero case. -/
theorem classifyIntent_confidence_unit_interval (msg : String) :
    0 ≤ (classifyIntent msg).confidence ∧ (classifyIntent msg).confidence ≤ 1 := by
  rw [classifyIntent_eq, classifyCore_confidence_eq]
  exact confidenceOf_unit _ _

/-! ## Claim C8 -/

theorem toLower_of_ws {c : Char} (h : jsIsWs c = true) : Char.toLower c = c := by
  simp only [jsIsWs, Bool.or_eq_true, decide_eq_true_eq] at h
  rcases h with ((((h | h) | h) | h) | h) | h <;> subst h <;> decide

theorem normalize_ws_eq_empty {msg : String} (h : ∀ c ∈ msg.data, jsIsWs c = true) :
    jsTrim (jsLower msg) = "" := by
  have hlower : (jsLower msg).data = msg.data.map Char.toLower := rfl
  have hallws : ∀ c ∈ (jsLower msg).data, jsIsWs c = true := by
    rw [hlower]
    intro c hc
    rcases List.mem_map.mp hc with ⟨c', hc', rfl⟩
    rw [toLower_of_ws (h c' hc')]
    exact h c' hc'
  unfold jsTrim
  rw [List.dropWhile_eq_nil_iff.mpr hallws]
  rfl

/-- Claim C8: for every message that is empty or consists only of
whitespace, `classifyIntent` does not throw (it is a total function) and
returns intent `use_case` with confidence exactly `0.3`, via the
pure-fallback `generic_query` rule. -/
theorem classifyIntent_whitespace_fallback (msg : String)
    (h : ∀ c ∈ msg.data, jsIsWs c = true) :
    (classifyIntent msg).intent = .use_case
      ∧ (classifyIntent msg).confidence = 3/10
      ∧ (classifyIntent msg).matchedPatterns = ["rule:generic_query"] := by
  unfold classifyIntent
  rw [normalize_ws_eq_empty h]
  exact ⟨rfl, rfl, rfl⟩

/-- Witness for C8: the concrete whitespace message `wsMsg`. -/
theorem classifyIntent_whitespace_fallback_witness :
    (classifyIntent wsMsg).intent = .use_case
      ∧ (classifyIntent wsMsg).confidence = 3/10
      ∧ (classifyIntent wsMsg).matchedPatterns = ["rule:generic_query"] :=
  classifyIntent_whitespace_fallback wsMsg (by decide)

/-! ## Claim C7 -/

theorem pickFold_ge (t : List (UserIntent × Nat)) :
    ∀ b : UserIntent × Nat,
      b.2 ≤ (List.foldl (fun b y => if y.2 > b.2 then y else b) b t).2 := by
  induction t with
  | nil => intro b; simp
  | cons a t ih =>
    intro b
    simp only [List.foldl_cons]
    by_cases h : a.2 > b.2
    · rw [if_pos h]
      exact le_trans (le_of_lt h) (ih a)
    · rw [if_neg h]
      exact ih b

theorem pickFold_mem_ge (t : List (UserIntent × Nat)) :
    ∀ (b x : UserIntent × Nat), x ∈ t →
      x.2 ≤ (List.foldl (fun b y => if y.2 > b.2 then y else b) b t).2 := by
  induction t with
  | nil => intro b x hx; simp at hx
  | cons a t ih =>
    intro b x hx
    simp only [List.foldl_cons]
    rcases List.mem_cons.mp hx with rfl | hx2
    · by_cases h : x.2 > b.2
      · rw [if_pos h]; exact pickFold_ge t x
      · rw [if_neg h]; exact le_trans (not_lt.mp h) (pickFold_ge t b)
    · exact ih _ x hx2

theorem pickFold_mem (t : List (UserIntent × Nat)) :
    ∀ b : UserIntent × Nat,
      (List.foldl (fun b y => if y.2 > b.2 then y else b) b t) = b
        ∨ (List.foldl (fun b y => if y.2 > b.2 then y else b) b t) ∈ t := by
  induction t with
  | nil => intro b; left; rfl
  | cons a t ih =>
    intro b
    simp only [List.foldl_cons]
    by_cases h : a.2 > b.2
    · rw [if_pos h]
      rcases ih a with h2 | h2
      · right; rw [h2]; exact List.mem_cons_self _ _
      · right; exact List.mem_cons_of_mem _ h2
    · rw [if_neg h]
      rcases ih b with h2 | h2
      · left; exact h2
      · right; exact List.mem_cons_of_mem _ h2

theorem pickTop_mem {l : List (UserIntent × Nat)} (h : l ≠ []) : pickTop l ∈ l := by
  cases l with
  | nil => exact absurd rfl h
  | cons a t =>
    show List.foldl (fun b y => if y.2 > b.2 then y else b) a t ∈ a :: t
    rcases pickFold_mem t a with h2 | h2
    · rw [h2]; exact List.mem_cons_self _ _
    · exact List.mem_cons_of_mem _ h2

theorem pickTop_ge {l : List (UserIntent × Nat)} {x : UserIntent × Nat} (hx : x ∈ l) :
    x.2 ≤ (pickTop l).2 := by
  cases l with
  | nil => simp at hx
  | cons a t =>
    show x.2 ≤ (List.foldl (fun b y => if y.2 > b.2 then y else b) a t).2
    rcases List.mem_cons.mp hx with rfl | h2
    · exact pickFold_ge t x
    · exact pickFold_mem_ge t a x h2

theorem scoreFor_eq_zero_iff (i : UserIntent) (nm : String) :
    scoreFor i nm = 0 ↔ matchListFor i nm = [] := by
  unfold scoreFor matchListFor
  rw [List.append_eq_nil, List.append_eq_nil]
  constructor
  · intro h
    refine ⟨⟨List.length_eq_zero.mp (by omega), List.length_eq_zero.mp (by omega)⟩,
      List.length_eq_zero.mp (by omega)⟩
  · rintro ⟨⟨hk, hp⟩, ht⟩
    rw [hk, hp, ht]
    rfl

theorem mem_scorePairs {nm : String} {x : UserIntent × Nat} (hx : x ∈ scorePairs nm) :
    x.2 = scoreFor x.1 nm := by
  unfold scorePairs at hx
  rcases List.mem_map.mp hx with ⟨i, _, rfl⟩
  rfl

theorem pickTop_score_eq (nm : String) :
    (pickTop (scorePairs nm)).2 = scoreFor (pickTop (scorePairs nm)).1 nm :=
  mem_scorePairs (pickTop_mem (by unfold scorePairs intentOrder; simp))

theorem scorePairs_all_zero {nm : String} (h : (pickTop (scorePairs nm)).2 = 0) :
    ∀ i, matchListFor i nm = [] := by
  intro i
  rw [← scoreFor_eq_zero_iff]
  have hmem : (i, scoreFor i nm) ∈ scorePairs nm := by
    unfold scorePairs
    apply List.mem_map.mpr
    refine ⟨i, ?_, rfl⟩
    cases i <;> simp [intentOrder]
  have := pickTop_ge hmem
  omega

theorem classifyCore_matched_eq (nm : String) :
    (classifyCore nm).matchedPatterns = (fallbackPick nm).2.2 := rfl

theorem classifyCore_intent_eq (nm : String) :
    (classifyCore nm).intent = (fallbackPick nm).1 := rfl

/-- When some pattern matched, the result is the winning intent with its
accumulated contributor list. -/
theorem fallbackPick_pos {nm : String} (h : (pickTop (scorePairs nm)).2 ≠ 0) :
    fallbackPick nm
      = ((pickTop (scorePairs nm)).1, (pickTop (scorePairs nm)).2,
          matchListFor (pickTop (scorePairs nm)).1 nm) := by
  unfold fallbackPick
  rw [if_neg h]

/-- Claim C7 (amended): for every message with at least one pattern match
(max score nonzero), `matchedPatterns` is exactly the winning intent's
contributor list, in the order checked (keywords, then phrases, then
regex).  When no pattern matched anywhere, the contributor list of the
returned intent is empty and `matchedPatterns` is instead the one-element
list naming the heuristic rule that fired; consequently `matchedPatterns`
is never empty. -/
theorem classifyIntent_matchedPatterns_characterization (msg : String) :
    ((pickTop (scorePairs (jsTrim (jsLower msg)))).2 ≠ 0 →
      (classifyIntent msg).matchedPatterns
        = matchListFor (classifyIntent msg).intent (jsTrim (jsLower msg)))
    ∧ ((pickTop (scorePairs (jsTrim (jsLower msg)))).2 = 0 →
      matchListFor (classifyIntent msg).intent (jsTrim (jsLower msg)) = []
        ∧ ((classifyIntent msg).matchedPatterns = ["rule:short_bevgenie_mention"]
          ∨ (classifyIntent msg).matchedPatterns = ["rule:short_question"]
          ∨ (classifyIntent msg).matchedPatterns = ["rule:generic_query"]))
    ∧ (classifyIntent msg).matchedPatterns ≠ [] := by
  rw [classifyIntent_eq, classifyCore_matched_eq, classifyCore_intent_eq]
  generalize jsTrim (jsLower msg) = nm
  by_cases h : (pickTop (scorePairs nm)).2 = 0
  · have hall := scorePairs_all_zero h
    refine ⟨fun hne => absurd h hne, fun _ => ?_, ?_⟩
    · unfold fallbackPick
      rw [if_pos h]
      split_ifs <;> simp [hall]
    · unfold fallbackPick
      rw [if_pos h]
      split_ifs <;> simp [hall]
  · rw [fallbackPick_pos h]
    refine ⟨fun _ => rfl, fun h0 => absurd h0 h, ?_⟩
    intro hnil
    have : scoreFor (pickTop (scorePairs nm)).1 nm = 0 :=
      (scoreFor_eq_zero_iff _ _).mpr hnil
    rw [pickTop_score_eq nm] at h
    exact h this

/-- Claim C7, counterexample: on the empty message no keyword, phrase or
regex pattern contributes (the contributor list is empty), yet
`matchedPatterns` is `["rule:generic_query"]` — not the contributor list,
and not empty despite the heuristic fallback. -/
theorem classifyIntent_matchedPatterns_cex :
    (classifyIntent "").matchedPatterns = ["rule:generic_query"]
      ∧ matchListFor (classifyIntent "").intent "" = []
      ∧ (classifyIntent "").matchedPatterns ≠ [] := by
  refine ⟨by decide, by decide, by decide⟩

/-- Witness for the amended C7 theorem at a concrete pattern-matching
message. -/
theorem classifyIntent_matchedPatterns_witness :
    (classifyIntent "tell me a joke").matchedPatterns
      = matchListFor (classifyIntent "tell me a joke").intent
          (jsTrim (jsLower "tell me a joke")) :=
  (classifyIntent_matchedPatterns_characterization "tell me a joke").1 (by decide)

/-! ## Claim C6 -/

theorem data_ne_nil_of_len {t : String} (h : 1 ≤ jsLen t) : t.data ≠ [] := by
  intro hn
  rw [jsLen, hn] at h
  simp at h

theorem jsTruthyS_of_len {t : String} (h : 1 ≤ jsLen t) : jsTruthyS (some t) = true := by
  simp only [jsTruthyS, Bool.not_eq_true']
  cases hd : t.data.isEmpty
  · rfl
  · rw [List.isEmpty_iff] at hd
    exact absurd hd (data_ne_nil_of_len h)

/-- Claim C6, counterexample: a page whose `feature_grid` holds exactly
one in-bounds feature is rejected — `VALIDATION_RULES.feature_grid`
requires at least 2 features, so `validatePageSpec` reports a violation
for that section. -/
theorem validate_one_feature_cex :
    validatePageSpec oneFeaturePage
      = ["Section 0 (feature_grid): Too few features (min 2)"] := by decide

/-- Claim C6 (amended): the Schema Validator accepts `feature_grid`
sections with 2 to 6 features: any page (with non-empty core fields)
whose single `feature_grid` section holds exactly two features with title
length in `[5, 50]` and description length in `[10, 200]` gets no
violation from `validatePageSpec`. -/
theorem validate_two_features_ok (t1 d1 t2 d2 : String)
    (ht1 : 5 ≤ jsLen t1) (ht1b : jsLen t1 ≤ 50)
    (hd1 : 10 ≤ jsLen d1) (hd1b : jsLen d1 ≤ 200)
    (ht2 : 5 ≤ jsLen t2) (ht2b : jsLen t2 ≤ 50)
    (hd2 : 10 ≤ jsLen d2) (hd2b : jsLen d2 ≤ 200) :
    validatePageSpec (twoFeaturePage t1 d1 t2 d2) = [] := by
  have e1 := jsTruthyS_of_len (t := t1) (by omega)
  have e2 := jsTruthyS_of_len (t := d1) (by omega)
  have e3 := jsTruthyS_of_len (t := t2) (by omega)
  have e4 := jsTruthyS_of_len (t := d2) (by omega)
  simp [validatePageSpec, twoFeaturePage, mkFeature, validateSection, cmap, errIf,
    List.enum, List.enumFrom, e1, e2, e3, e4, jsTruthyS, Section.typeTag]
  exact ⟨by decide, by decide,
    ⟨data_ne_nil_of_len (by omega), data_ne_nil_of_len (by omega)⟩,
    data_ne_nil_of_len (by omega), data_ne_nil_of_len (by omega)⟩

/-- Witness for the amended C6 theorem at concrete feature texts. -/
theorem validate_two_features_ok_witness :
    validatePageSpec
      (twoFeaturePage "Sales Tracking" "Track field sales performance in real time."
        "Market Coverage" "See distributor coverage across all territories.") = [] :=
  validate_two_features_ok _ _ _ _ (by decide) (by decide) (by decide) (by decide)
    (by decide) (by decide) (by decide) (by decide)

/-! ## Claim C5 -/

/-- Claim C5: the Content Sanitizer is *not* idempotent — evaluated at
`crashPage` (a `single_screen` whose `insights` hold a bare empty
string), one sanitizer pass succeeds and yields `crashPageOnce`, but
sanitizing `crashPageOnce` throws: `insight.text || insight` falls back
from the empty `text` to the insight object itself, and `truncateText`
then calls `.substring` on a non-string (TypeError, modelled as `none`).
The spec requires `sanitize` to never fail and to be idempotent; the code
violates both on this input. -/
theorem sanitize_not_idempotent_crash :
    sanitizePageContent crashPage = some crashPageOnce
      ∧ sanitizePageContent crashPageOnce = none := by
  refine ⟨by decide, by decide⟩

/-! ## Claim C4 -/

theorem and_gt_false {o : Option String} {m : Nat} (h : optLen o ≤ m) :
    (jsTruthyS o && decide (optLen o > m)) = false := by
  have hd : decide (optLen o > m) = false := decide_eq_false (by omega)
  rw [hd, Bool.and_false]

theorem sanitizeInsight_shape {e b : InsightElem} (h : sanitizeInsight e = some b) :
    ∃ u, b = .objText u ∧ jsLen u ≤ 250 := by
  cases e with
  | objText t =>
    by_cases h1 : t.data.isEmpty = true
    · rw [sanitizeInsight, if_pos h1] at h
      simp at h
    · rw [sanitizeInsight, if_neg h1] at h
      simp only [Option.some.injEq] at h
      exact ⟨truncStr t 250, h.symm, jsLen_truncStr_le (by omega)⟩
  | strVal s =>
    simp only [sanitizeInsight, Option.some.injEq] at h
    exact ⟨truncStr s 250, h.symm, jsLen_truncStr_le (by omega)⟩

theorem insightViolation_of_sanitized {i : Nat} {b : InsightElem}
    (h : ∃ u, b = .objText u ∧ jsLen u ≤ 250) : insightViolation i b = [] := by
  rcases h with ⟨u, rfl, hu⟩
  simp only [insightViolation, errIf_eq_nil]
  have : decide (jsLen u > VALIDATION_RULES.ss_insightText_max) = false :=
    decide_eq_false (by simp [VALIDATION_RULES.ss_insightText_max]; omega)
  rw [this, Bool.and_false]

theorem sanitizeStat_ok (i : Nat) (st : StatElem) :
    (errIf (jsTruthyS (sanitizeStat st).value
        && decide (optLen (sanitizeStat st).value > VALIDATION_RULES.ss_statValue_max))
      ("Stat " ++ toString i ++ " value too long (max "
        ++ toString VALIDATION_RULES.ss_statValue_max ++ " chars)")
      ++ errIf (jsTruthyS (sanitizeStat st).label
          && decide (optLen (sanitizeStat st).label > VALIDATION_RULES.ss_statLabel_max))
        ("Stat " ++ toString i ++ " label too long (max "
          ++ toString VALIDATION_RULES.ss_statLabel_max ++ " chars)")) = [] := by
  rw [List.append_eq_nil, errIf_eq_nil, errIf_eq_nil]
  constructor
  · exact and_gt_false (optLen_truncateText_le (by decide))
  · exact and_gt_false (optLen_truncateText_le (by decide))

theorem sanitizeVisual_highlight_le (v : VisualContent) :
    optLen (sanitizeVisual v).highlight ≤ VALIDATION_RULES.ss_visualContentHighlight_max := by
  cases hh : v.highlight with
  | none => simp [sanitizeVisual, hh, optLen]
  | some h =>
    by_cases h1 : h.data.isEmpty = true
    · simp [sanitizeVisual, hh, h1, optLen]
    · simp only [sanitizeVisual, hh, if_neg h1]
      simpa [optLen] using jsLen_truncStr_le (t := h) (by decide)

theorem truncStr_len_le_of_mem {l : List String} {m : Nat} {x : String}
    (hm : 3 ≤ m) (hx : x ∈ l.map (fun st => truncStr st m)) : jsLen x ≤ m := by
  rcases List.mem_map.mp hx with ⟨st, _, rfl⟩
  exact jsLen_truncStr_le hm

/-- The heart of the round trip: a `single_screen` section that passed
validation still passes after one (successful) sanitizer pass. -/
theorem validateSingleScreen_sanitize {d d' : SingleScreenData}
    (hv : validateSingleScreen d = [])
    (hs : sanitizeSingleScreenSection d = some d') :
    validateSingleScreen d' = [] := by
  simp only [validateSingleScreen, List.append_eq_nil, and_assoc, errIf_eq_nil] at hv
  obtain ⟨h1, _h2, _h3, h4, h5, _h6, h7, h8, _h9, _h10, _h11, h12, h13, _h14⟩ := hv
  -- d.insights is present with 3–4 entries
  have hins_ne : d.insights.isNone = false := by
    rcases Bool.or_eq_false_iff.mp h4 with ⟨h, _⟩
    exact h
  obtain ⟨li, hli⟩ : ∃ li, d.insights = some li := by
    cases hi : d.insights with
    | none => rw [hi] at hins_ne; simp at hins_ne
    | some l => exact ⟨l, rfl⟩
  have hli_ge : 3 ≤ li.length := by
    rcases Bool.or_eq_false_iff.mp h4 with ⟨_, h⟩
    rw [hli] at h
    simp [VALIDATION_RULES.ss_minInsights] at h
    omega
  have hli_le : li.length ≤ 4 := by
    rw [hli] at h5
    simp [VALIDATION_RULES.ss_maxInsights] at h5
    omega
  -- d.stats is present with exactly 3 entries
  obtain ⟨ls, hls⟩ : ∃ ls, d.stats = some ls := by
    rcases Bool.or_eq_false_iff.mp h7 with ⟨h, _⟩
    cases hi : d.stats with
    | none => rw [hi] at h; simp at h
    | some l => exact ⟨l, rfl⟩
  have hls_len : ls.length = 3 := by
    rcases Bool.or_eq_false_iff.mp h7 with ⟨_, ha⟩
    rw [hls] at ha h8
    simp [VALIDATION_RULES.ss_minStats] at ha
    simp [VALIDATION_RULES.ss_maxStats] at h8
    omega
  -- d.ctas is present with 2–3 entries
  obtain ⟨lc, hlc⟩ : ∃ lc, d.ctas = some lc := by
    rcases Bool.or_eq_false_iff.mp h12 with ⟨h, _⟩
    cases hi : d.ctas with
    | none => rw [hi] at h; simp at h
    | some l => exact ⟨l, rfl⟩
  have hlc_ge : 2 ≤ lc.length := by
    rcases Bool.or_eq_false_iff.mp h12 with ⟨_, h⟩
    rw [hlc] at h
    simp [VALIDATION_RULES.ss_minCTAs] at h
    omega
  have hlc_le : lc.length ≤ 3 := by
    rw [hlc] at h13
    simp [VALIDATION_RULES.ss_maxCTAs] at h13
    omega
  -- headline/subtitle truthy
  have hhead : jsTruthyS d.headline = true := by
    rcases Bool.or_eq_false_iff.mp h1 with ⟨h, _⟩
    simpa using h
  have hsub : jsTruthyS d.subtitle = true := by
    rcases Bool.or_eq_false_iff.mp h1 with ⟨_, h⟩
    simpa using h
  -- unpack the sanitizer output
  simp only [sanitizeSingleScreenSection, hli] at hs
  cases hoins : omap sanitizeInsight (li.take VALIDATION_RULES.ss_maxInsights) with
  | none => rw [hoins] at hs; simp at hs
  | some ins =>
    rw [hoins] at hs
    simp only [Option.some.injEq] at hs
    subst hs
    have hins_len : ins.length = li.length := by
      rw [omap_length hoins]
      simp [VALIDATION_RULES.ss_maxInsights]
      omega
    -- prove every block of the sanitized section empty
    simp only [validateSingleScreen, List.append_eq_nil, and_assoc, errIf_eq_nil]
    refine ⟨?_, ?_, ?_, ?_, ?_, ?_, ?_, ?_, ?_, ?_, ?_, ?_, ?_, ?_, ?_⟩
    · -- missing headline or subtitle
      rw [Bool.or_eq_false_iff]
      constructor
      · simp [jsTruthyS_truncateText hhead]
      · simp [jsTruthyS_truncateText hsub]
    · exact and_gt_false (optLen_truncateText_le (by decide))
    · exact and_gt_false (optLen_truncateText_le (by decide))
    · -- at least 3 insights
      rw [Bool.or_eq_false_iff]
      refine ⟨rfl, ?_⟩
      apply decide_eq_false
      simp [VALIDATION_RULES.ss_minInsights, hins_len]
      omega
    · -- at most 4 insights
      simp only [Option.isSome_some, Bool.true_and]
      apply decide_eq_false
      simp [VALIDATION_RULES.ss_maxInsights, hins_len]
      omega
    · -- per-insight lengths
      rw [cmap_eq_nil]
      intro x hx
      have hmem := List.snd_mem_of_mem_enum hx
      simp only [Option.getD_some] at hmem
      rcases omap_mem hoins x.2 hmem with ⟨a, _, ha⟩
      exact insightViolation_of_sanitized (sanitizeInsight_shape ha)
    · -- at least 3 stats
      rw [Bool.or_eq_false_iff]
      refine ⟨rfl, ?_⟩
      apply decide_eq_false
      simp [VALIDATION_RULES.ss_minStats, VALIDATION_RULES.ss_maxStats, hls, hls_len]
    · -- at most 3 stats
      simp only [Option.isSome_some, Bool.true_and]
      apply decide_eq_false
      simp [VALIDATION_RULES.ss_maxStats, hls, hls_len]
    · -- per-stat lengths
      rw [cmap_eq_nil]
      intro x hx
      have hmem := List.snd_mem_of_mem_enum hx
      simp only [Option.getD_some] at hmem
      rcases List.mem_map.mp hmem with ⟨st, _, heq⟩
      rw [← heq]
      exact sanitizeStat_ok x.1 st
    · -- visual content bounds
      cases hvc : d.visualContent with
      | none => simp
      | some v =>
        simp only [Option.map_some']
        rw [List.append_eq_nil, errIf_eq_nil, errIf_eq_nil]
        constructor
        · exact and_gt_false (optLen_truncateText_le (by decide))
        · exact and_gt_false (sanitizeVisual_highlight_le v)
    · -- how-it-works count bound
      apply decide_eq_false
      simp [VALIDATION_RULES.ss_maxHowItWorksSteps]
    · -- per-step length bound
      rw [cmap_eq_nil]
      intro x hx
      have hmem := List.snd_mem_of_mem_enum hx
      have hlen := truncStr_len_le_of_mem (by decide) hmem
      rw [errIf_eq_nil]
      have : decide (jsLen x.2 > VALIDATION_RULES.ss_howItWorksStep_max) = false :=
        decide_eq_false (by simp [VALIDATION_RULES.ss_howItWorksStep_max] at hlen ⊢; omega)
      rw [this, Bool.and_false]
    · -- at least 2 CTAs
      rw [Bool.or_eq_false_iff]
      refine ⟨rfl, ?_⟩
      apply decide_eq_false
      simp [VALIDATION_RULES.ss_minCTAs, VALIDATION_RULES.ss_maxCTAs, hlc]
      try omega
    · -- at most 3 CTAs
      simp only [Option.isSome_some, Bool.true_and]
      apply decide_eq_false
      simp [VALIDATION_RULES.ss_maxCTAs, hlc]
      try omega
    · -- per-CTA text length
      rw [cmap_eq_nil]
      intro x hx
      have hmem := List.snd_mem_of_mem_enum hx
      simp only [Option.getD_some] at hmem
      rcases List.mem_map.mp hmem with ⟨c, _, heq⟩
      rw [errIf_eq_nil, ← heq]
      exact and_gt_false (optLen_truncateText_le (by decide))

/-- A sanitized section that validated before still validates. -/
theorem validateSection_sanitize {s s' : Section} (hv : validateSection s = [])
    (hs : sanitizeSection s = some s') : validateSection s' = [] := by
  cases s with
  | single_screen d =>
    simp only [sanitizeSection] at hs
    cases hss : sanitizeSingleScreenSection d with
    | none => rw [hss] at hs; simp at hs
    | some d2 =>
      rw [hss] at hs
      simp only [Option.map_some', Option.some.injEq] at hs
      subst hs
      exact validateSingleScreen_sanitize hv hss
  | hero a b c e =>
    simp only [sanitizeSection, Option.some.injEq] at hs
    rw [← hs]; exact hv
  | feature_grid a b c e =>
    simp only [sanitizeSection, Option.some.injEq] at hs
    rw [← hs]; exact hv
  | comparison_table a b c =>
    simp only [sanitizeSection, Option.some.injEq] at hs
    rw [← hs]; exact hv
  | cta a b c e =>
    simp only [sanitizeSection, Option.some.injEq] at hs
    rw [← hs]; exact hv
  | faq a b =>
    simp only [sanitizeSection, Option.some.injEq] at hs
    rw [← hs]; exact hv
  | metrics a b =>
    simp only [sanitizeSection, Option.some.injEq] at hs
    rw [← hs]; exact hv
  | steps a b c =>
    simp only [sanitizeSection, Option.some.injEq] at hs
    rw [← hs]; exact hv
  | otherType t =>
    simp only [sanitizeSection, Option.some.injEq] at hs
    rw [← hs]; exact hv

/-- Claim C4, counterexample: the round trip fails as stated — `c4gapPage`
passes `validatePageSpec` with no violations (the empty-text insight
object coerces to the truthy object whose `length` is `undefined`, so the
length check records nothing), yet `sanitizePageContent` throws on it
(`truncateText` receives the object and calls `.substring`), so
`validatePageSpec (sanitizePageContent doc)` is not the empty list — the
sanitizer produces no document at all. -/
theorem validate_sanitize_gap_cex :
    validatePageSpec c4gapPage = [] ∧ sanitizePageContent c4gapPage = none := by
  refine ⟨by decide, by decide⟩

/-- Claim C4 (amended): sanitization never introduces a new violation
into a document that already validated, whenever it produces a document
at all — for any page `p` with `validatePageSpec p = []` on which the
sanitizer succeeds (it throws on insight objects with empty `text`, see
the counterexample), the sanitized page also yields no violations. -/
theorem validate_sanitize_roundtrip (p q : Page)
    (hv : validatePageSpec p = []) (hs : sanitizePageContent p = some q) :
    validatePageSpec q = [] := by
  unfold validatePageSpec at hv
  by_cases hcore : (!jsTruthyS p.ptype || !jsTruthyS p.title || !jsTruthyS p.description)
      = true
  · rw [if_pos hcore] at hv
    simp at hv
  · rw [if_neg hcore] at hv
    push_neg at hcore
    cases hsecs : p.sections with
    | none =>
      rw [hsecs] at hv
      simp at hv
    | some secs =>
      rw [hsecs] at hv
      cases secs with
      | nil => simp at hv
      | cons s0 rest =>
        -- every original section validates
        have hall : ∀ s ∈ s0 :: rest, validateSection s = [] := by
          intro s hsmem
          rcases List.mem_iff_get.mp hsmem with ⟨i, rfl⟩
          have henum : (i.1, (s0 :: rest).get i) ∈ (s0 :: rest).enum := by
            rw [List.mk_mem_enum_iff_getElem?]
            simp [List.getElem?_eq_getElem]
          have := cmap_eq_nil.mp hv _ henum
          rcases List.map_eq_nil_iff.mp this with h
          exact h
        -- unpack the sanitizer
        unfold sanitizePageContent at hs
        rw [hsecs] at hs
        simp only [] at hs
        cases hmap : omap sanitizeSection (s0 :: rest) with
        | none => rw [hmap] at hs; simp at hs
        | some secs2 =>
          rw [hmap] at hs
          simp only [Option.some.injEq] at hs
          subst hs
          -- and validate the sanitized page
          unfold validatePageSpec
          rw [if_neg (by simpa using hcore)]
          simp only []
          have hlen : secs2.length = (s0 :: rest).length := omap_length hmap
          cases hsecs2 : secs2 with
          | nil => rw [hsecs2] at hlen; simp at hlen
          | cons t0 trest =>
            rw [cmap_eq_nil]
            intro x hx
            have hmem := List.snd_mem_of_mem_enum hx
            rw [← hsecs2] at hmem
            rcases omap_mem hmap x.2 hmem with ⟨a, hamem, ha⟩
            rw [List.map_eq_nil_iff]
            exact validateSection_sanitize (hall a hamem) ha

/-- Witness for C4: a concrete page that validates, sanitizes
successfully, and still validates. -/
theorem validate_sanitize_roundtrip_witness :
    sanitizePageContent roundtripDoc = some roundtripDoc
      ∧ validatePageSpec roundtripDoc = [] :=
  ⟨by decide, validate_sanitize_roundtrip roundtripDoc roundtripDoc (by decide) (by decide)⟩

/-! ## Claim C3 -/

/-- Claim C3, counterexample: on a successful generation the intent-locked
orchestrator returns the parsed document itself, not its sanitized form —
here the parsed `longHeadlinePage` (whose sanitization is a different
document) comes back verbatim in the `success:true` response.  The
Content Sanitizer is invoked only by the page renderer, not by the
orchestrator. -/
theorem orchestrator_skips_sanitizer_cex :
    (generatePageSpecV2 classifyIntent c3req c3env).success = true
      ∧ (generatePageSpecV2 classifyIntent c3req c3env).page = some longHeadlinePage
      ∧ sanitizePageContent longHeadlinePage ≠ some longHeadlinePage := by
  refine ⟨by decide, by decide, by decide⟩

/-- Claim C3 (amended): on every successful generation the intent-locked
orchestrator returns the parsed document verbatim — no sanitizer pass is
applied to it (sanitization happens downstream in the renderer). -/
theorem v2_success_returns_parsed_page (classify : String → IntentClassificationResult)
    (req : PageGenerationRequest) (env : V2Env) (page : Page)
    (h : attemptV2 env (v2Classification classify req)
        (getLayoutStrategyForIntent (v2Classification classify req).intent) req
        = .ok page)
    (h2 : req.sessionId = none ∨ page.sections ≠ none) :
    generatePageSpecV2 classify req env = mkSuccess page 0 := by
  unfold generatePageSpecV2
  simp only [h]
  rcases h2 with h2 | h2
  · rw [h2]
  · cases hsid : req.sessionId with
    | none => rfl
    | some sid =>
      cases hs : page.sections with
      | none => exact absurd hs h2
      | some l => simp only [hs]

/-- Witness for the amended C3 theorem. -/
theorem v2_success_returns_parsed_page_witness :
    generatePageSpecV2 classifyIntent c3req c3env = mkSuccess longHeadlinePage 0 :=
  v2_success_returns_parsed_page classifyIntent c3req c3env longHeadlinePage rfl
    (Or.inl rfl)

/-! ## Claim C2 -/

/-- Claim C2: with a schema validator that returns a non-empty violation
list on every attempt and a generation backend whose output always
parses, the template+retry `generatePageSpec` makes exactly 3 generation
attempts (retry budget 2) and returns `success:false` with
`retryCount = 2`.  (The intent-locked variant performs no validation and
no retries; this retry budget lives in the template+retry variant.) -/
theorem retry_budget_exhaustion (validate : Page → List String)
    (req : PageGenerationRequest) (env : V1Env)
    (hval : ∀ p, validate p ≠ [])
    (hgen : ∀ n msg, ∃ p, attemptV1 env n msg = .ok p) :
    (generatePageSpecV1 validate req env).1.success = false
      ∧ (generatePageSpecV1 validate req env).1.retryCount = some 2
      ∧ (generatePageSpecV1 validate req env).2 = 3 := by
  have hmain : ∀ fuel rc att msg, rc + fuel = 3 → rc ≤ 2 →
      (v1Loop validate env fuel rc att msg).1.success = false
        ∧ (v1Loop validate env fuel rc att msg).1.retryCount = some 2
        ∧ (v1Loop validate env fuel rc att msg).2 = att + fuel := by
    intro fuel
    induction fuel with
    | zero => intro rc att msg h3 h2; omega
    | succ f ih =>
      intro rc att msg h3 h2
      obtain ⟨p, hp⟩ := hgen rc msg
      unfold v1Loop
      simp only [hp]
      rw [if_neg (hval p)]
      by_cases hrc : rc < 2
      · rw [if_pos hrc]
        have := ih (rc + 1) (att + 1) (msg ++ "\n\n[Previous attempt had validation issues: "
          ++ String.intercalate ", " (validate p)
          ++ ". Please regenerate with these corrections.]") (by omega) (by omega)
        refine ⟨this.1, this.2.1, ?_⟩
        rw [this.2.2]
        omega
      · rw [if_neg hrc]
        have hrc2 : rc = 2 := by omega
        subst hrc2
        exact ⟨rfl, rfl, by omega⟩
  have key : generatePageSpecV1 validate req env
      = v1Loop validate env 3 0 0 req.userMessage := by
    unfold generatePageSpecV1
    simp only []
    split
    · rfl
    · split
      · split
        · split
          · exact absurd (by assumption) (hval _)
          · rfl
        · rfl
      · rfl
  rw [key]
  have h := hmain 3 0 0 req.userMessage (by omega) (by omega)
  exact ⟨h.1, h.2.1, h.2.2⟩

/-- Witness for C2 at a concrete always-rejecting validator and a backend
stub whose output always parses. -/
theorem retry_budget_exhaustion_witness :
    (generatePageSpecV1 alwaysReject c2req c2env).1.success = false
      ∧ (generatePageSpecV1 alwaysReject c2req c2env).1.retryCount = some 2
      ∧ (generatePageSpecV1 alwaysReject c2req c2env).2 = 3 :=
  retry_budget_exhaustion alwaysReject c2req c2env (fun p => by simp [alwaysReject])
    (fun n msg => ⟨stubPage, rfl⟩)

/-! ## Claim C1 -/

theorem append_ne_empty_left {s t : String} (h : s.data ≠ []) : s ++ t ≠ "" := by
  intro he
  have h2 : (s ++ t).data = [] := by rw [he]
  rw [data_append] at h2
  exact h (List.append_eq_nil.mp h2).1

theorem attemptV1_err_nonempty {env : V1Env}
    (hmsg : ∀ n msg m, env.gen n msg = .error (.err m) → m ≠ "") :
    ∀ n msg m, attemptV1 env n msg = .error (.err m) → m ≠ "" := by
  intro n msg m h
  unfold attemptV1 at h
  cases hg : env.gen n msg with
  | error e =>
    simp only [hg] at h
    cases e with
    | err m0 =>
      simp only [Except.error.injEq, JSError.err.injEq] at h
      exact h ▸ hmsg n msg m0 hg
    | nonError => simp at h
  | ok o =>
    simp only [hg] at h
    cases o with
    | none =>
      simp only [Except.error.injEq, JSError.err.injEq] at h
      rw [← h]
      decide
    | some txt =>
      cases hb : braceSpan txt with
      | none =>
        simp only [hb] at h
        simp only [Except.error.injEq, JSError.err.injEq] at h
        rw [← h]
        decide
      | some span =>
        simp only [hb] at h
        cases hp : env.parse n span with
        | error e =>
          simp only [hp] at h
          simp only [Except.error.injEq, JSError.err.injEq] at h
          rw [← h]
          exact append_ne_empty_left (by decide)
        | ok p => simp only [hp] at h; simp at h

theorem attemptV2_err_nonempty {env : V2Env}
    (hg : ∀ ic strat r m, env.gen ic strat r = .error (.err m) → m ≠ "")
    (hp : ∀ s m, env.parse s = .error (.err m) → m ≠ "") :
    ∀ ic strat r m, attemptV2 env ic strat r = .error (.err m) → m ≠ "" := by
  intro ic strat r m h
  unfold attemptV2 at h
  cases hge : env.gen ic strat r with
  | error e =>
    simp only [hge] at h
    cases e with
    | err m0 =>
      simp only [Except.error.injEq, JSError.err.injEq] at h
      exact h ▸ hg ic strat r m0 hge
    | nonError => simp at h
  | ok o =>
    simp only [hge] at h
    cases o with
    | none =>
      simp only [Except.error.injEq, JSError.err.injEq] at h
      rw [← h]
      decide
    | some raw =>
      cases hpe : env.parse (stripFences (jsTrim raw)) with
      | error e =>
        simp only [hpe] at h
        cases e with
        | err m0 =>
          simp only [Except.error.injEq, JSError.err.injEq] at h
          exact h ▸ hp _ m0 hpe
        | nonError => simp at h
      | ok p2 => simp only [hpe] at h; simp at h

theorem v1Loop_boundary {validate : Page → List String} {env : V1Env}
    (hmsg : ∀ n msg m, env.gen n msg = .error (.err m) → m ≠ "") :
    ∀ fuel rc att msg,
      ((v1Loop validate env fuel rc att msg).1.success = true →
          ((v1Loop validate env fuel rc att msg).1.page).isSome = true)
        ∧ ((v1Loop validate env fuel rc att msg).1.success = false →
          ∃ m, (v1Loop validate env fuel rc att msg).1.error = some m ∧ m ≠ "") := by
  intro fuel
  induction fuel with
  | zero =>
    intro rc att msg
    exact ⟨fun h => by simp [v1Loop, mkFailure] at h,
      fun _ => ⟨"Max retries exceeded", rfl, by decide⟩⟩
  | succ f ih =>
    intro rc att msg
    unfold v1Loop
    cases hat : attemptV1 env rc msg with
    | ok page =>
      simp only [hat]
      by_cases hv : validate page = []
      · rw [if_pos hv]
        exact ⟨fun _ => rfl, fun h => by simp [mkSuccess] at h⟩
      · rw [if_neg hv]
        by_cases hrc : rc < 2
        · rw [if_pos hrc]
          exact ih (rc + 1) (att + 1) _
        · rw [if_neg hrc]
          refine ⟨fun h => by simp [mkFailure] at h, fun _ => ⟨_, rfl, ?_⟩⟩
          exact append_ne_empty_left (by decide)
    | error e =>
      simp only [hat]
      by_cases hrc : rc < 2
      · rw [if_pos hrc]
        exact ih (rc + 1) (att + 1) msg
      · rw [if_neg hrc]
        refine ⟨fun h => by simp [mkFailure] at h, fun _ => ⟨jsErrMsg e, rfl, ?_⟩⟩
        cases e with
        | err m => exact attemptV1_err_nonempty hmsg rc msg m hat
        | nonError => decide

/-- Claim C1: neither `generatePageSpec` variant ever throws across its
boundary — both are total functions into `PageGenerationResponse` for
every request and environment, a `success:true` response always carries a
page, and a `success:false` response always carries a non-empty error
string (given that the environment's own thrown `Error` messages are
non-empty; every internally-generated message is non-empty). -/
theorem generatePageSpec_boundary :
    (∀ (validate : Page → List String) (req : PageGenerationRequest) (env : V1Env),
      (∀ n msg m, env.gen n msg = .error (.err m) → m ≠ "") →
      (((generatePageSpecV1 validate req env).1.success = true →
          ((generatePageSpecV1 validate req env).1.page).isSome = true)
        ∧ ((generatePageSpecV1 validate req env).1.success = false →
          ∃ m, (generatePageSpecV1 validate req env).1.error = some m ∧ m ≠ "")))
    ∧ (∀ (classify : String → IntentClassificationResult)
        (req : PageGenerationRequest) (env : V2Env),
      (∀ ic strat r m, env.gen ic strat r = .error (.err m) → m ≠ "") →
      (∀ s m, env.parse s = .error (.err m) → m ≠ "") →
      (((generatePageSpecV2 classify req env).success = true →
          ((generatePageSpecV2 classify req env).page).isSome = true)
        ∧ ((generatePageSpecV2 classify req env).success = false →
          ∃ m, (generatePageSpecV2 classify req env).error = some m ∧ m ≠ ""))) := by
  constructor
  · intro validate req env hmsg
    have key : generatePageSpecV1 validate req env
          = v1Loop validate env 3 0 0 req.userMessage
        ∨ ∃ fp, generatePageSpecV1 validate req env = (mkSuccess fp 0, 0) := by
      unfold generatePageSpecV1
      simp only []
      split
      · left; rfl
      · split
        · split
          · split
            · right; exact ⟨_, rfl⟩
            · left; rfl
          · left; rfl
        · left; rfl
    rcases key with key | ⟨fp, key⟩
    · rw [key]
      exact v1Loop_boundary hmsg 3 0 0 req.userMessage
    · rw [key]
      exact ⟨fun _ => rfl, fun h => by simp [mkSuccess] at h⟩
  · intro classify req env hg hp
    unfold generatePageSpecV2
    cases hat : attemptV2 env (v2Classification classify req)
        (getLayoutStrategyForIntent (v2Classification classify req).intent) req with
    | ok page =>
      simp only [hat]
      cases hsid : req.sessionId with
      | none => exact ⟨fun _ => rfl, fun h => by simp [mkSuccess] at h⟩
      | some sid =>
        cases hs : page.sections with
        | none =>
          exact ⟨fun h => by simp [mkFailure] at h, fun _ => ⟨_, rfl, by decide⟩⟩
        | some l => exact ⟨fun _ => rfl, fun h => by simp [mkSuccess] at h⟩
    | error e =>
      simp only [hat]
      refine ⟨fun h => by simp [mkFailure] at h, fun _ => ⟨jsErrMsg e, rfl, ?_⟩⟩
      cases e with
      | err m => exact attemptV2_err_nonempty hg hp _ _ _ m hat
      | nonError => decide

/-- Witness for C1: a transport failure in the retry variant and a
missing text block in the intent-locked variant both collapse into
`success:false` responses with non-empty error strings. -/
theorem generatePageSpec_boundary_witness :
    (∃ m, (generatePageSpecV1 validatePageSpec c1req c1envV1).1.error = some m ∧ m ≠ "")
      ∧ (∃ m, (generatePageSpecV2 classifyIntent c1req c1envV2).error = some m ∧ m ≠ "") :=
  ⟨(generatePageSpec_boundary.1 validatePageSpec c1req c1envV1
      (fun n msg m h => by
        simp only [c1envV1, Except.error.injEq, JSError.err.injEq] at h
        rw [← h]
        decide)).2 (by decide),
   (generatePageSpec_boundary.2 classifyIntent c1req c1envV2
      (fun ic strat r m h => by simp [c1envV2] at h)
      (fun s m h => by simp [c1envV2] at h)).2 (by decide)⟩

/-! ## Claim C10 -/

/-- Claim C10: when the request carries a precomputed intent, the
intent-locked orchestrator never invokes the intent classifier — its
result is identical for any two classifiers — the classification it uses
is the provided intent with confidence exactly `1.0` and
`matchedPatterns = ["provided"]`, and the layout strategy is selected
from the provided intent. -/
theorem provided_intent_skips_classifier
    (classify classify2 : String → IntentClassificationResult)
    (req : PageGenerationRequest) (env : V2Env) (i : UserIntent)
    (h : req.userIntent = some i) :
    v2Classification classify req
        = { intent := i, confidence := 1, matchedPatterns := ["provided"],
            reasoning := "Intent provided by caller" }
      ∧ v2Strategy classify req = getLayoutStrategyForIntent i
      ∧ generatePageSpecV2 classify req env = generatePageSpecV2 classify2 req env := by
  have hc : v2Classification classify req
      = { intent := i, confidence := 1, matchedPatterns := ["provided"],
          reasoning := "Intent provided by caller" } := by
    unfold v2Classification
    rw [h]
  have hc2 : v2Classification classify2 req
      = { intent := i, confidence := 1, matchedPatterns := ["provided"],
          reasoning := "Intent provided by caller" } := by
    unfold v2Classification
    rw [h]
  refine ⟨hc, ?_, ?_⟩
  · unfold v2Strategy
    rw [hc]
  · unfold generatePageSpecV2
    rw [hc, hc2]

/-- Witness for C10 with the real classifier against a stub classifier. -/
theorem provided_intent_skips_classifier_witness :
    v2Classification classifyIntent c10req
        = { intent := .comparison, confidence := 1, matchedPatterns := ["provided"],
            reasoning := "Intent provided by caller" }
      ∧ v2Strategy classifyIntent c10req = getLayoutStrategyForIntent .comparison
      ∧ generatePageSpecV2 classifyIntent c10req c10env
          = generatePageSpecV2 constClassifier c10req c10env :=
  provided_intent_skips_classifier classifyIntent constClassifier c10req c10env
    .comparison rfl

end BevGenie
